import Mathlib

/-!
Verification of the Trading-Agent screening / calibration / tracking pipeline.

Shallow embedding of the Python sources in `tradingagents/`:
floats are modelled as rationals (ℚ), Python `round(x, n)` as exact
round-half-even at `n` decimal places, dicts as structures or association
lists, and exceptions as `Except` / `Option` values.  LLM transport is a
black box (prompt text in, raw text out), so LLM-dependent code is
parameterised by an oracle for the per-step outcome; every theorem about
such code quantifies over all oracles.
-/

namespace TradingAgent

/-! ## Numeric helpers: Python `round` and clamping -/

/-- Floor of a rational, written so that it reduces in the kernel
(`Int.ediv` on the numerator); equal to `⌊x⌋` by `qfloor_eq`. -/
def qfloor (x : ℚ) : ℤ := x.num / (x.den : ℤ)

theorem qfloor_eq (x : ℚ) : qfloor x = ⌊x⌋ := Rat.floor_def.symm

/-- Round-half-even to the nearest integer, the rounding mode of Python's
built-in `round`. -/
def rne (x : ℚ) : ℤ :=
  let f : ℤ := qfloor x
  let r : ℚ := x - f
  if r < 1/2 then f
  else if 1/2 < r then f + 1
  else if f % 2 = 0 then f else f + 1

/-- `10 ^ n` as a rational, via `Nat.pow` so that it reduces in the kernel. -/
def pow10 (n : ℕ) : ℚ := ((10 ^ n : ℕ) : ℚ)

theorem pow10_pos (n : ℕ) : (0 : ℚ) < pow10 n := by
  unfold pow10
  exact_mod_cast Nat.pos_pow_of_pos n (by norm_num)

/-- Python `round(x, n)`: round-half-even at `n` decimal places. -/
def pyRound (n : ℕ) (x : ℚ) : ℚ :=
  (rne (x * pow10 n) : ℚ) / pow10 n

/-- `_clamp(v, lo, hi) = max(lo, min(hi, v))` from `sector_calibrator.py`. -/
def clamp (v lo hi : ℚ) : ℚ := max lo (min hi v)

theorem rne_ge (m : ℤ) (x : ℚ) (h : (m : ℚ) ≤ x) : m ≤ rne x := by
  have hf : m ≤ qfloor x := by rw [qfloor_eq]; exact Int.le_floor.mpr h
  unfold rne
  dsimp only
  split
  · exact hf
  · split
    · omega
    · split <;> omega

theorem rne_le (m : ℤ) (x : ℚ) (h : x ≤ (m : ℚ)) : rne x ≤ m := by
  have hf : qfloor x ≤ m := by
    rw [qfloor_eq]
    have := Int.floor_le_floor h
    simpa using this
  unfold rne
  dsimp only
  split
  · exact hf
  · -- here 1/2 ≤ x - qfloor x, so x is not an integer, hence qfloor x < m
    have hlt : (qfloor x : ℚ) < x := by
      rename_i hr
      push_neg at hr
      nlinarith [hr]
    have : qfloor x < m := by
      by_contra hc
      push_neg at hc
      have hmx : (m : ℚ) ≤ (qfloor x : ℚ) := by exact_mod_cast hc
      have : (m : ℚ) < x := lt_of_le_of_lt hmx hlt
      linarith
    split
    · omega
    · split <;> omega

/-- `pyRound n` does not cross a lower bound that sits on the rounding grid
(`a * 10^n` integral, witnessed by `m`). -/
theorem pyRound_ge (a : ℚ) (n : ℕ) (x : ℚ) (m : ℤ)
    (hgrid : a * pow10 n = (m : ℚ))
    (h : a ≤ x) : a ≤ pyRound n x := by
  have hpow : (0 : ℚ) < pow10 n := pow10_pos n
  have h1 : (m : ℚ) ≤ x * pow10 n := by
    rw [← hgrid]
    exact mul_le_mul_of_nonneg_right h (le_of_lt hpow)
  have h2 : (m : ℚ) ≤ (rne (x * pow10 n) : ℚ) := by
    exact_mod_cast rne_ge m _ h1
  unfold pyRound
  rw [le_div_iff₀ hpow, hgrid]
  exact h2

/-- `pyRound n` does not cross an upper bound that sits on the rounding grid
(`b * 10^n` integral, witnessed by `m`). -/
theorem pyRound_le (b : ℚ) (n : ℕ) (x : ℚ) (m : ℤ)
    (hgrid : b * pow10 n = (m : ℚ))
    (h : x ≤ b) : pyRound n x ≤ b := by
  have hpow : (0 : ℚ) < pow10 n := pow10_pos n
  have h1 : x * pow10 n ≤ (m : ℚ) := by
    rw [← hgrid]
    exact mul_le_mul_of_nonneg_right h (le_of_lt hpow)
  have h2 : (rne (x * pow10 n) : ℚ) ≤ (m : ℚ) := by
    exact_mod_cast rne_le m _ h1
  unfold pyRound
  rw [div_le_iff₀ hpow, hgrid]
  exact h2

theorem clamp_mem (v lo hi : ℚ) (h : lo ≤ hi) :
    lo ≤ clamp v lo hi ∧ clamp v lo hi ≤ hi := by
  constructor
  · exact le_max_left _ _
  · exact max_le h (min_le_left _ _)

/-- Evaluation rule for `rne` below the midpoint (includes exact integers). -/
theorem rne_eval_lo (x : ℚ) (f : ℤ) (h1 : (f : ℚ) ≤ x) (h2 : x < (f : ℚ) + 1/2) :
    rne x = f := by
  have hq : qfloor x = f := by
    rw [qfloor_eq]
    exact Int.floor_eq_iff.mpr ⟨h1, by linarith⟩
  unfold rne
  dsimp only
  rw [hq, if_pos (by linarith)]

/-- Evaluation rule for `rne` above the midpoint. -/
theorem rne_eval_hi (x : ℚ) (f : ℤ) (h1 : (f : ℚ) + 1/2 < x) (h2 : x < (f : ℚ) + 1) :
    rne x = f + 1 := by
  have hq : qfloor x = f := by
    rw [qfloor_eq]
    exact Int.floor_eq_iff.mpr ⟨by linarith, by linarith⟩
  unfold rne
  dsimp only
  rw [hq, if_neg (by linarith), if_pos (by linarith)]

/-- Unfolding rule for `pyRound` given the value of the inner rounding. -/
theorem pyRound_eval (n : ℕ) (x : ℚ) (f : ℤ) (h : rne (x * pow10 n) = f) :
    pyRound n x = (f : ℚ) / pow10 n := by
  unfold pyRound
  rw [h]

/-! ## Sector Calibrator (`tradingagents/sector/sector_calibrator.py`) -/

/-- Input record for the calibrator: the fields of a candidate dict that
`calibrate_with_sector` reads. -/
structure CalItem where
  symbol : String
  name : String
  industry : String
  change_pct : ℚ
  recent_3d_change : ℚ
deriving DecidableEq

/-- Drop leading whitespace characters from a character list. -/
def dropWs : List Char → List Char
  | [] => []
  | c :: cs => if c.isWhitespace then dropWs cs else c :: cs

/-- Python `str.strip()`: remove leading and trailing whitespace. -/
def pyStrip (s : String) : String :=
  ⟨((dropWs ((dropWs s.data).reverse)).reverse)⟩

/-- `_norm_sector`: stripped industry, or `"unknown_sector"` when blank. -/
def normSector (item : CalItem) : String :=
  if pyStrip item.industry = "" then "unknown_sector" else pyStrip item.industry

/-- The bucket `sector_bucket[sector]`: candidates whose normalised sector is
`sector`, in input order (defaultdict append preserves order). -/
def groupOf (all : List CalItem) (sector : String) : List CalItem :=
  all.filter (fun i => normSector i = sector)

/-- Arithmetic mean of a field over a group (0/0 never occurs: callers
guard on non-empty groups). -/
def meanBy (f : CalItem → ℚ) (items : List CalItem) : ℚ :=
  (items.map f).sum / (items.length : ℚ)

/-- `day_strength`: mean `change_pct` over the sector group. -/
def dayStrengthOf (all : List CalItem) (sector : String) : ℚ :=
  meanBy (fun i => i.change_pct) (groupOf all sector)

/-- `trend_3d`: mean `recent_3d_change` over the sector group. -/
def trend3dOf (all : List CalItem) (sector : String) : ℚ :=
  meanBy (fun i => i.recent_3d_change) (groupOf all sector)

/-- Python `max(items, key=lambda x: x.change_pct)`: first maximum wins
(`max` keeps the incumbent on ties). `none` iff the list is empty. -/
def leaderOf (items : List CalItem) : Option CalItem :=
  items.foldl
    (fun acc i =>
      match acc with
      | none => some i
      | some b => if i.change_pct > b.change_pct then some i else some b)
    none

/-- One row of the `sector_stats` dict, with the rounding the source applies
when storing (`round(_, 3)` / `round(_, 4)`). -/
structure SectorStats where
  day_strength : ℚ
  trend_3d : ℚ
  momentum_factor : ℚ
  leader_symbol : String
  leader_change_pct : ℚ
  leader_recent_3d_change : ℚ
  leader_status : String
deriving DecidableEq

/-- `sector_stats[sector]` as computed by the first loop of
`calibrate_with_sector`; `none` iff the sector's bucket is empty (the dict
has no such key). -/
def sectorStats (all : List CalItem) (sector : String) : Option SectorStats :=
  match leaderOf (groupOf all sector) with
  | none => none
  | some leader =>
    let ds := dayStrengthOf all sector
    let t3 := trend3dOf all sector
    let status :=
      if ds ≥ 6 ∧ leader.recent_3d_change ≥ 8 then "强"
      else if ds ≥ 3 then "分歧"
      else "退潮"
    let momentum := clamp (1 + ds / 100 + t3 / 200) (85/100) (115/100)
    some
      { day_strength := pyRound 3 ds
        trend_3d := pyRound 3 t3
        momentum_factor := pyRound 4 momentum
        leader_symbol := leader.symbol
        leader_change_pct := pyRound 3 leader.change_pct
        leader_recent_3d_change := pyRound 3 leader.recent_3d_change
        leader_status := status }

/-- One entry of `calibrated_analysis_list` (the fields the calibrator adds,
plus the identifying fields it carries over). -/
structure CalOut where
  symbol : String
  name : String
  industry : String
  sector : String
  sector_day_strength : ℚ
  sector_trend_3d : ℚ
  sector_leader_symbol : String
  sector_leader_status : String
  sector_multiplier : ℚ
  calibration_reason : String
deriving DecidableEq

/-- The second loop of `calibrate_with_sector`, for one `analysis_list` item:
`sector_stats.get(sector, neutral-default)` then re-clamp and round. -/
def calibrateItem (all : List CalItem) (item : CalItem) : CalOut :=
  let sector := normSector item
  let s := sectorStats all sector
  let mf : ℚ := match s with | some st => st.momentum_factor | none => 1
  let ds : ℚ := match s with | some st => st.day_strength | none => 0
  let t3 : ℚ := match s with | some st => st.trend_3d | none => 0
  let lsym : String := match s with | some st => st.leader_symbol | none => ""
  let lstat : String := match s with | some st => st.leader_status | none => "分歧"
  let multiplier := clamp mf (85/100) (115/100)
  { symbol := item.symbol
    name := item.name
    industry := item.industry
    sector := sector
    sector_day_strength := ds
    sector_trend_3d := t3
    sector_leader_symbol := lsym
    sector_leader_status := lstat
    sector_multiplier := pyRound 4 multiplier
    calibration_reason :=
      if multiplier > 1 then "板块走强，上调评估"
      else if multiplier < 1 then "板块偏弱，下调评估"
      else "板块中性" }

/-- `calibrate_with_sector(...)["calibrated_analysis_list"]`. -/
def calibrate_with_sector (analysis_list all_candidates : List CalItem) :
    List CalOut :=
  analysis_list.map (calibrateItem all_candidates)

/-- The spec's momentum formula, written from the spec sentence
"Momentum multiplier = clamp(1 + day_strength/100 + trend_3d/200, 0.85, 1.15)"
for comparison against the source computation. -/
def specMomentumFormula (dayStrength trend3d : ℚ) : ℚ :=
  clamp (1 + dayStrength / 100 + trend3d / 200) (85/100) (115/100)

/-- `pyRound` fixes integers. -/
theorem pyRound_intCast (n : ℕ) (m : ℤ) : pyRound n (m : ℚ) = m := by
  have hpow : (0 : ℚ) < pow10 n := pow10_pos n
  have hx : (m : ℚ) * pow10 n = ((m * 10 ^ n : ℤ) : ℚ) := by
    push_cast [pow10]
    ring
  have hr : rne ((m : ℚ) * pow10 n) = m * 10 ^ n := by
    apply rne_eval_lo
    · exact le_of_eq hx.symm
    · rw [hx]; linarith
  rw [pyRound_eval n _ _ hr, hx.symm]
  field_simp

theorem pyRound_one (n : ℕ) : pyRound n (1 : ℚ) = 1 := by
  have := pyRound_intCast n 1
  simpa using this

/-- C2 (amended).  For every sector that has a non-empty candidate group,
the stored `momentum_factor` is the spec formula
`clamp(1 + day_strength/100 + trend_3d/200, 0.85, 1.15)` rounded
half-even to 4 decimal places (the source applies `round(·, 4)` before
storing, which the claim's bare formula omits); every calibrated item's
`sector_multiplier` lies in `[0.85, 1.15]`; and an item whose sector has no
stats gets the neutral default multiplier `1.0`. -/
theorem C2_calibration_bounds
    (analysis all : List CalItem) (sector : String) (st : SectorStats)
    (h : sectorStats all sector = some st) :
    st.momentum_factor =
      pyRound 4 (specMomentumFormula (dayStrengthOf all sector) (trend3dOf all sector))
    ∧ (∀ item : CalItem, sectorStats all (normSector item) = none →
        (calibrateItem all item).sector_multiplier = 1)
    ∧ ∀ out ∈ calibrate_with_sector analysis all,
        85/100 ≤ out.sector_multiplier ∧ out.sector_multiplier ≤ 115/100 := by
  refine ⟨?_, ?_, ?_⟩
  · cases hl : leaderOf (groupOf all sector) with
    | none => rw [sectorStats, hl] at h; exact absurd h (by simp)
    | some leader =>
      rw [sectorStats, hl] at h
      simp only [Option.some.injEq] at h
      rw [← h]
      rfl
  · intro item h0
    simp only [calibrateItem, h0]
    have hmin : min (115/100 : ℚ) 1 = 1 := min_eq_right (by norm_num)
    have hmax : max (85/100 : ℚ) 1 = 1 := max_eq_right (by norm_num)
    simp only [clamp, hmin, hmax]
    exact pyRound_one 4
  · intro out hout
    simp only [calibrate_with_sector, List.mem_map] at hout
    obtain ⟨item, _, rfl⟩ := hout
    simp only [calibrateItem]
    have hmem := clamp_mem
      (match sectorStats all (normSector item) with
       | some st => st.momentum_factor
       | none => 1)
      (85/100) (115/100) (by norm_num)
    exact ⟨pyRound_ge _ _ _ 8500 (by norm_num [pow10]) hmem.1,
           pyRound_le _ _ _ 11500 (by norm_num [pow10]) hmem.2⟩

/-- C2 counterexample to the claim as stated: for a sector of three
candidates with `change_pct` 1, 0, 0, the mean `day_strength` is 1/3, the
claim's formula gives 301/300 ≈ 1.003333…, but the stored `momentum_factor`
is the 4-decimal rounding 1.0033 — the two differ, so
`momentum_factor = clamp(1 + day_strength/100 + trend_3d/200, 0.85, 1.15)`
does not hold exactly on the code. -/
theorem C2_counterexample :
    (sectorStats [⟨"a", "n", "x", 1, 0⟩, ⟨"b", "n", "x", 0, 0⟩, ⟨"c", "n", "x", 0, 0⟩]
        "x").map SectorStats.momentum_factor = some (10033/10000 : ℚ)
    ∧ specMomentumFormula
        (dayStrengthOf [⟨"a", "n", "x", 1, 0⟩, ⟨"b", "n", "x", 0, 0⟩, ⟨"c", "n", "x", 0, 0⟩] "x")
        (trend3dOf [⟨"a", "n", "x", 1, 0⟩, ⟨"b", "n", "x", 0, 0⟩, ⟨"c", "n", "x", 0, 0⟩] "x")
      = 301/300
    ∧ (10033/10000 : ℚ) ≠ 301/300 := by
  have hg : groupOf [⟨"a", "n", "x", 1, 0⟩, ⟨"b", "n", "x", 0, 0⟩, ⟨"c", "n", "x", 0, 0⟩] "x"
      = [⟨"a", "n", "x", 1, 0⟩, ⟨"b", "n", "x", 0, 0⟩, ⟨"c", "n", "x", 0, 0⟩] := by decide
  have hl : leaderOf (groupOf
        [⟨"a", "n", "x", 1, 0⟩, ⟨"b", "n", "x", 0, 0⟩, ⟨"c", "n", "x", 0, 0⟩] "x")
      = some ⟨"a", "n", "x", 1, 0⟩ := by decide
  have hds : dayStrengthOf
      [⟨"a", "n", "x", 1, 0⟩, ⟨"b", "n", "x", 0, 0⟩, ⟨"c", "n", "x", 0, 0⟩] "x" = 1/3 := by
    rw [dayStrengthOf, hg]
    norm_num [meanBy]
  have ht3 : trend3dOf
      [⟨"a", "n", "x", 1, 0⟩, ⟨"b", "n", "x", 0, 0⟩, ⟨"c", "n", "x", 0, 0⟩] "x" = 0 := by
    rw [trend3dOf, hg]
    norm_num [meanBy]
  have hform : specMomentumFormula (1/3 : ℚ) 0 = 301/300 := by
    rw [specMomentumFormula, clamp]
    rw [min_eq_right (by norm_num), max_eq_right (by norm_num)]
    norm_num
  have hround : pyRound 4 (301/300 : ℚ) = 10033/10000 := by
    have hp : pow10 4 = (10000 : ℚ) := by norm_num [pow10]
    have hr : rne ((301/300 : ℚ) * pow10 4) = 10033 := by
      rw [hp]
      apply rne_eval_lo
      · norm_num
      · norm_num
    rw [pyRound_eval 4 _ _ hr, hp]
    norm_num
  refine ⟨?_, ?_, by norm_num⟩
  · rw [sectorStats, hl]
    simp only [Option.map_some']
    rw [hds, ht3]
    rw [show clamp (1 + (1/3 : ℚ) / 100 + 0 / 200) (85/100) (115/100)
          = specMomentumFormula (1/3) 0 from rfl, hform, hround]
  · rw [hds, ht3, hform]

/-- Witness for `C2_calibration_bounds` at a concrete one-candidate sector. -/
theorem C2_calibration_bounds_witness :
    sectorStats [(⟨"s1", "n", "tech", 0, 0⟩ : CalItem)] "tech"
      = some ⟨0, 0, 1, "s1", 0, 0, "退潮"⟩
    ∧ ((⟨0, 0, 1, "s1", 0, 0, "退潮"⟩ : SectorStats).momentum_factor =
        pyRound 4 (specMomentumFormula
          (dayStrengthOf [⟨"s1", "n", "tech", 0, 0⟩] "tech")
          (trend3dOf [⟨"s1", "n", "tech", 0, 0⟩] "tech"))
      ∧ (∀ item : CalItem,
          sectorStats [⟨"s1", "n", "tech", 0, 0⟩] (normSector item) = none →
          (calibrateItem [⟨"s1", "n", "tech", 0, 0⟩] item).sector_multiplier = 1)
      ∧ ∀ out ∈ calibrate_with_sector [⟨"s1", "n", "tech", 0, 0⟩] [⟨"s1", "n", "tech", 0, 0⟩],
          85/100 ≤ out.sector_multiplier ∧ out.sector_multiplier ≤ 115/100) := by
  have hg : groupOf [(⟨"s1", "n", "tech", 0, 0⟩ : CalItem)] "tech"
      = [⟨"s1", "n", "tech", 0, 0⟩] := by decide
  have hl : leaderOf (groupOf [(⟨"s1", "n", "tech", 0, 0⟩ : CalItem)] "tech")
      = some ⟨"s1", "n", "tech", 0, 0⟩ := by decide
  have hds : dayStrengthOf [(⟨"s1", "n", "tech", 0, 0⟩ : CalItem)] "tech" = 0 := by
    rw [dayStrengthOf, hg]
    norm_num [meanBy]
  have ht3 : trend3dOf [(⟨"s1", "n", "tech", 0, 0⟩ : CalItem)] "tech" = 0 := by
    rw [trend3dOf, hg]
    norm_num [meanBy]
  have hr0 : pyRound 3 (0 : ℚ) = 0 := by exact_mod_cast pyRound_intCast 3 0
  have hclamp : clamp (1 + (0 : ℚ) / 100 + 0 / 200) (85/100) (115/100) = 1 := by
    rw [clamp]
    rw [min_eq_right (by norm_num), max_eq_right (by norm_num)]
    norm_num
  have hH : sectorStats [(⟨"s1", "n", "tech", 0, 0⟩ : CalItem)] "tech"
      = some ⟨0, 0, 1, "s1", 0, 0, "退潮"⟩ := by
    rw [sectorStats, hl]
    simp only [hds, ht3, hclamp, hr0, pyRound_one 4, Option.some.injEq]
    rw [if_neg (by norm_num), if_neg (by norm_num)]
  exact ⟨hH, C2_calibration_bounds _ _ _ _ hH⟩

/-! ## String utilities: Python `startswith` and `in` (substring test) -/

/-- `needle` is an initial segment of `hay` (character lists). -/
def listStarts : List Char → List Char → Bool
  | [], _ => true
  | _ :: _, [] => false
  | a :: n, b :: h => a = b && listStarts n h

/-- `needle` occurs contiguously somewhere in `hay` (character lists). -/
def listOccurs (n : List Char) : List Char → Bool
  | [] => n.isEmpty
  | b :: h => listStarts n (b :: h) || listOccurs n h

/-- Python `needle in hay` on strings. -/
def strOccurs (needle hay : String) : Bool := listOccurs needle.data hay.data

/-- Python `hay.startswith(needle)` on strings. -/
def strStarts (needle hay : String) : Bool := listStarts needle.data hay.data

theorem listStarts_of_append_elem (n : List Char) (c : Char) :
    ∀ xs ys : List Char, listStarts n (xs ++ c :: ys) = true → c ∉ n →
      listStarts n xs = true := by
  induction n with
  | nil => intro xs ys _ _; cases xs <;> rfl
  | cons a n ih =>
    intro xs ys hst hc
    cases xs with
    | nil =>
      simp only [List.nil_append, listStarts, Bool.and_eq_true, decide_eq_true_eq] at hst
      exact absurd (hst.1 ▸ List.mem_cons_self a n) hc
    | cons b xs =>
      simp only [List.cons_append, listStarts, Bool.and_eq_true] at hst ⊢
      exact ⟨hst.1, ih xs ys hst.2 (fun hm => hc (List.mem_cons_of_mem a hm))⟩

theorem listOccurs_of_starts (n h : List Char) (hst : listStarts n h = true) :
    listOccurs n h = true := by
  cases h with
  | nil => cases n with
    | nil => rfl
    | cons a n => simp [listStarts] at hst
  | cons b t => simp [listOccurs, hst]

theorem listOccurs_cons (n : List Char) (b : Char) (t : List Char)
    (h : listOccurs n t = true) : listOccurs n (b :: t) = true := by
  simp [listOccurs, h]

/-- Splitting an occurrence around a separator character that the needle
does not contain: the needle lies entirely left or entirely right. -/
theorem listOccurs_split (n : List Char) (c : Char) (hc : c ∉ n) :
    ∀ xs ys : List Char, listOccurs n (xs ++ c :: ys) = true →
      listOccurs n xs = true ∨ listOccurs n ys = true := by
  intro xs
  induction xs with
  | nil =>
    intro ys hocc
    simp only [List.nil_append, listOccurs, Bool.or_eq_true] at hocc
    rcases hocc with hst | hocc
    · cases n with
      | nil => left; rfl
      | cons a n =>
        simp only [listStarts, Bool.and_eq_true, decide_eq_true_eq] at hst
        exact absurd (hst.1 ▸ List.mem_cons_self a n) hc
    · right; exact hocc
  | cons x xs ih =>
    intro ys hocc
    simp only [List.cons_append, listOccurs, Bool.or_eq_true] at hocc
    rcases hocc with hst | hocc
    · left
      exact listOccurs_of_starts _ _
        (listStarts_of_append_elem n c (x :: xs) ys hst hc)
    · rcases ih ys hocc with hl | hr
      · left; exact listOccurs_cons _ _ _ hl
      · right; exact hr

/-! ## Coarse Screener (`tradingagents/screener/coarse_rules.py`) -/

/-- Candidate-record fields read by `hard_filter` / `build_raw_tags`. -/
structure ScreenItem where
  symbol : String
  is_st : Bool
  change_pct : ℚ
  last_close : ℚ
  ma5 : ℚ
  ma10 : ℚ
  ma20 : ℚ
  vol_ratio : ℚ
  high : ℚ
  industry : String
deriving DecidableEq

/-- The `hard_filters` section of a rulebook. -/
structure HardFilters where
  min_change_pct : ℚ
  exclude_st : Bool
  main_board_only : Bool
deriving DecidableEq

/-- Main-board code prefixes tested by `hard_filter`. -/
def mainBoardCode (symbol : String) : Bool :=
  strStarts "000" symbol || strStarts "001" symbol || strStarts "002" symbol ||
  strStarts "003" symbol || strStarts "600" symbol || strStarts "601" symbol ||
  strStarts "603" symbol || strStarts "605" symbol

/-- `hard_filter(item, rulebook)`: `(ok, reasons)`, reasons accumulated in
source order, not short-circuited. -/
def hard_filter (item : ScreenItem) (rb : HardFilters) : Bool × List String :=
  let reasons :=
    (if item.change_pct ≤ rb.min_change_pct then ["change_pct_below_threshold"] else [])
    ++ (if rb.exclude_st && item.is_st then ["st_excluded"] else [])
    ++ (if rb.main_board_only && !(mainBoardCode item.symbol) then ["not_main_board"] else [])
  (reasons.isEmpty, reasons)

/-- `build_raw_tags(item)`: descriptive tags, computed independently;
`basic_structure` only when nothing else applies. -/
def build_raw_tags (item : ScreenItem) : List String :=
  let tags :=
    (if item.high > 0 ∧ item.last_close ≥ item.high * (995/1000) then ["breakout"] else [])
    ++ (if item.vol_ratio ≥ 12/10 then ["volume_expansion"] else [])
    ++ (if item.last_close > 0 ∧ item.last_close > item.ma5 ∧ item.ma5 ≥ item.ma10
          ∧ item.ma10 ≥ item.ma20 then ["trend_aligned"] else [])
    ++ (if item.last_close ≥ item.ma20 ∧ item.change_pct ≥ 5 then ["high_position"] else [])
    ++ (if pyStrip item.industry ≠ "" then ["concept_present"] else [])
  if tags.isEmpty then ["basic_structure"] else tags

/-- A record routed to `dropped`, annotated with all failing reasons. -/
structure DroppedRec where
  item : ScreenItem
  drop_reasons : List String
deriving DecidableEq

/-- A surviving record with its coarse reason tags (score keys are popped by
the source's sanitising step; they are not modelled as fields here). -/
structure KeptRec where
  item : ScreenItem
  coarse_reason_tags : List String
deriving DecidableEq

structure CoarseResult where
  candidates : List KeptRec
  dropped : List DroppedRec
deriving DecidableEq

/-- `run_coarse_screen` ("pure" mode: no ranking, no truncation, input
order preserved; `top_n` is accepted but unused). -/
def run_coarse_screen (records : List ScreenItem) (rb : HardFilters) : CoarseResult :=
  match records with
  | [] => ⟨[], []⟩
  | r :: rest =>
    let res := run_coarse_screen rest rb
    if (hard_filter r rb).1 then
      ⟨⟨r, build_raw_tags r⟩ :: res.candidates, res.dropped⟩
    else
      ⟨res.candidates, ⟨r, (hard_filter r rb).2⟩ :: res.dropped⟩

theorem dropped_mem_of_failed (rb : HardFilters) (item : ScreenItem) :
    ∀ records : List ScreenItem, item ∈ records → (hard_filter item rb).1 = false →
      ∃ d ∈ (run_coarse_screen records rb).dropped,
        d.item = item ∧ d.drop_reasons = (hard_filter item rb).2 := by
  intro records
  induction records with
  | nil => intro h; exact absurd h (List.not_mem_nil item)
  | cons r rest ih =>
    intro hmem hfail
    rcases List.mem_cons.mp hmem with rfl | htail
    · rw [run_coarse_screen, hfail]
      exact ⟨⟨item, (hard_filter item rb).2⟩, by simp, rfl, rfl⟩
    · obtain ⟨d, hd, hdi, hdr⟩ := ih htail hfail
      rw [run_coarse_screen]
      rcases hok : (hard_filter r rb).1 with _ | _
      · simp only [hok, Bool.false_eq_true, if_false]
        exact ⟨d, List.mem_cons_of_mem _ hd, hdi, hdr⟩
      · simp only [hok, if_true]
        exact ⟨d, hd, hdi, hdr⟩

/-- C5.  The coarse screener's `change_pct` hard filter is exclusive at the
boundary: a record with `change_pct = min_change_pct` fails the filter, is
routed to `dropped` with reason `"change_pct_below_threshold"`, and a record
with `change_pct > min_change_pct` passes that filter (that reason is not
among its failure reasons). -/
theorem C5_change_pct_boundary (rb : HardFilters) (records : List ScreenItem)
    (item : ScreenItem) :
    (item.change_pct = rb.min_change_pct →
      (hard_filter item rb).1 = false
      ∧ "change_pct_below_threshold" ∈ (hard_filter item rb).2
      ∧ (item ∈ records →
          ∃ d ∈ (run_coarse_screen records rb).dropped,
            d.item = item ∧ "change_pct_below_threshold" ∈ d.drop_reasons))
    ∧ (rb.min_change_pct < item.change_pct →
        "change_pct_below_threshold" ∉ (hard_filter item rb).2) := by
  constructor
  · intro heq
    have hle : item.change_pct ≤ rb.min_change_pct := le_of_eq heq
    have hmem : "change_pct_below_threshold" ∈ (hard_filter item rb).2 := by
      simp [hard_filter, if_pos hle]
    have hfail : (hard_filter item rb).1 = false := by
      simp [hard_filter, if_pos hle, List.isEmpty]
    refine ⟨hfail, hmem, fun hin => ?_⟩
    obtain ⟨d, hd, hdi, hdr⟩ := dropped_mem_of_failed rb item records hin hfail
    exact ⟨d, hd, hdi, hdr ▸ hmem⟩
  · intro hlt hmem
    have hnle : ¬ item.change_pct ≤ rb.min_change_pct := not_le.mpr hlt
    simp only [hard_filter, if_neg hnle, List.nil_append] at hmem
    split at hmem <;> split at hmem <;> simp_all

/-- Witness for `C5_change_pct_boundary`: with the default threshold 5.0, a
record at exactly 5.0 lands in `dropped` with the boundary reason, and a
record at 6.0 does not carry that reason. -/
theorem C5_change_pct_boundary_witness :
    (hard_filter ⟨"600001", false, 5, 0, 0, 0, 0, 0, 0, ""⟩ ⟨5, true, true⟩).1 = false
    ∧ "change_pct_below_threshold"
        ∈ (hard_filter ⟨"600001", false, 5, 0, 0, 0, 0, 0, 0, ""⟩ ⟨5, true, true⟩).2
    ∧ (∃ d ∈ (run_coarse_screen [⟨"600001", false, 5, 0, 0, 0, 0, 0, 0, ""⟩]
          ⟨5, true, true⟩).dropped,
        d.item = ⟨"600001", false, 5, 0, 0, 0, 0, 0, 0, ""⟩
        ∧ "change_pct_below_threshold" ∈ d.drop_reasons)
    ∧ "change_pct_below_threshold"
        ∉ (hard_filter ⟨"600002", false, 6, 0, 0, 0, 0, 0, 0, ""⟩ ⟨5, true, true⟩).2 := by
  have h1 := (C5_change_pct_boundary ⟨5, true, true⟩
      [⟨"600001", false, 5, 0, 0, 0, 0, 0, 0, ""⟩]
      ⟨"600001", false, 5, 0, 0, 0, 0, 0, 0, ""⟩).1 (by decide)
  have h2 := (C5_change_pct_boundary ⟨5, true, true⟩
      [⟨"600001", false, 5, 0, 0, 0, 0, 0, 0, ""⟩]
      ⟨"600002", false, 6, 0, 0, 0, 0, 0, 0, ""⟩).2 (by decide)
  exact ⟨h1.1, h1.2.1, h1.2.2 (by decide), h2⟩

/-! ## Tracker (`tradingagents/iteration/tracker.py`) -/

/-- One parsed price-history row (the CSV columns the tracker reads).
`_parse_csv` sorts by date; the embedding takes the parsed, sorted rows as
input.  Dates are modelled as integers (only order and equality are used).
`_safe_float` of a missing cell yields 0.0; cells are modelled as ℚ. -/
structure PriceRow where
  date : ℤ
  close : ℚ
  volume : ℚ
deriving DecidableEq

/-- A tracking target: symbol/date plus the carried decision-card fields. -/
structure TrackTarget where
  symbol : String
  name : String
  source_trade_date : ℤ
  decision_stage : String
  decision_conclusion_type : String
  decision_evidence_chain : List String
  decision_info_gaps : List String
deriving DecidableEq

/-- `_pct_change(base, val)`: `None` for a non-positive base, else the
percentage change rounded to 3 decimals. -/
def pctChange (base val : ℚ) : Option ℚ :=
  if base ≤ 0 then none else some (pyRound 3 ((val / base - 1) * 100))

/-- Python `min` over a non-empty list (the `[]` case is never reached:
`_compute_mdd` guards on non-empty `closes`). -/
def listMin : List ℚ → ℚ
  | [] => 0
  | [x] => x
  | x :: y :: t => min x (listMin (y :: t))

/-- `_compute_mdd(base, closes)`. -/
def computeMdd (base : ℚ) (closes : List ℚ) : Option ℚ :=
  if base ≤ 0 ∨ closes = [] then none
  else some (pyRound 3 ((listMin closes / base - 1) * 100))

/-- `_next_dates(df, source_date, 3)`: first three rows strictly after the
source date, in the sorted frame's order. -/
def nextRows (df : List PriceRow) (src : ℤ) : List PriceRow :=
  (df.filter (fun r => r.date > src)).take 3

/-- Source-date close resolution: last row matching the source date, else
the first row as fallback reference, else 0.0 for an empty frame. -/
def sourceClose (df : List PriceRow) (src : ℤ) : ℚ :=
  match df with
  | [] => 0
  | first :: _ =>
    match (df.filter (fun r => r.date = src)).getLast? with
    | some row => row.close
    | none => first.close

/-- Source-date volume resolution, mirroring `sourceClose`. -/
def sourceVolume (df : List PriceRow) (src : ℤ) : ℚ :=
  match df with
  | [] => 0
  | first :: _ =>
    match (df.filter (fun r => r.date = src)).getLast? with
    | some row => row.volume
    | none => first.volume

/-- `_reason_from_signals`: reason text and tags from price/volume
behaviour.  `fmt2` abstracts Python's `f"{v:.2f}"` float formatting (its
output never feeds back into any numeric decision). -/
def reasonFromSignals (fmt2 : ℚ → String) (retPct : Option ℚ) (dayClose : Option ℚ)
    (prevClose : ℚ) (dayVolume : Option ℚ) (prevVolume : ℚ) : String × List String :=
  match retPct with
  | none => ("数据不足", ["data_insufficient"])
  | some r =>
    let volRatio : Option ℚ :=
      match dayVolume with
      | some dv => if prevVolume > 0 then some (dv / prevVolume) else none
      | none => none
    let volTags :=
      match volRatio with
      | some vr =>
        if vr ≥ 13/10 then ["volume_expand"]
        else if vr ≤ 8/10 then ["volume_shrink"]
        else []
      | none => []
    let dirPair :=
      if r ≥ 5 then ("strong_up", "上涨: 资金推动+趋势延续")
      else if r > 0 then ("mild_up", "上涨: 温和修复")
      else if r ≤ -8 then ("sharp_down", "下跌: 快速兑现/风险释放")
      else if r ≤ -3 then ("pullback", "下跌: 情绪退潮+回撤")
      else ("sideways", "震荡: 多空分歧")
    let priceTags :=
      match dayClose with
      | some dc =>
        if prevClose > 0 then
          (if dc / prevClose ≥ 103/100 then ["price_breakout"]
           else if dc / prevClose ≤ 97/100 then ["price_breakdown"]
           else [])
        else []
      | none => []
    let reason :=
      match volRatio with
      | some vr => dirPair.2 ++ " (量比≈" ++ fmt2 vr ++ ")"
      | none => dirPair.2
    (reason, volTags ++ [dirPair.1] ++ priceTags)

/-- One tracking metric record (`TrackingMetric` dataclass). -/
structure TrackingMetric where
  symbol : String
  name : String
  source_trade_date : ℤ
  source_close : ℚ
  t1_return_pct : Option ℚ
  t2_return_pct : Option ℚ
  t3_return_pct : Option ℚ
  mdd_3d_pct : Option ℚ
  reason_t1 : String
  reason_t2 : String
  reason_t3 : String
  reason_tags_t1 : List String
  reason_tags_t2 : List String
  reason_tags_t3 : List String
  should_remove : Bool
  remove_reason : String
  decision_stage : String
  decision_conclusion_type : String
  decision_evidence_chain : List String
  decision_info_gaps : List String

/-- The per-target body of `track_three_day_metrics`, applied to the parsed
price frame for that symbol (a fetch/parse failure yields `df = []`). -/
def trackOne (fmt2 : ℚ → String) (target : TrackTarget) (df : List PriceRow) :
    TrackingMetric :=
  let src := target.source_trade_date
  let source_close := sourceClose df src
  let source_volume := sourceVolume df src
  let rows := nextRows df src
  let closes := rows.map PriceRow.close
  let vols := rows.map PriceRow.volume
  let t1 := if closes.length ≥ 1 then pctChange source_close (closes.getD 0 0) else none
  let t2 := if closes.length ≥ 2 then pctChange source_close (closes.getD 1 0) else none
  let t3 := if closes.length ≥ 3 then pctChange source_close (closes.getD 2 0) else none
  let mdd := computeMdd source_close closes
  let rt1 := reasonFromSignals fmt2 t1
    (if closes.length ≥ 1 then some (closes.getD 0 0) else none)
    source_close
    (if vols.length ≥ 1 then some (vols.getD 0 0) else none)
    source_volume
  let rt2 := reasonFromSignals fmt2 t2
    (if closes.length ≥ 2 then some (closes.getD 1 0) else none)
    (if closes.length ≥ 1 then closes.getD 0 0 else source_close)
    (if vols.length ≥ 2 then some (vols.getD 1 0) else none)
    (if vols.length ≥ 1 then vols.getD 0 0 else source_volume)
  let rt3 := reasonFromSignals fmt2 t3
    (if closes.length ≥ 3 then some (closes.getD 2 0) else none)
    (if closes.length ≥ 2 then closes.getD 1 0
     else if closes.length ≥ 1 then closes.getD 0 0 else source_close)
    (if vols.length ≥ 3 then some (vols.getD 2 0) else none)
    (if vols.length ≥ 2 then vols.getD 1 0
     else if vols.length ≥ 1 then vols.getD 0 0 else source_volume)
  let consecutive_down : Bool :=
    if closes.length ≥ 2 then
      decide (closes.getD 0 0 < source_close) && decide (closes.getD 1 0 < closes.getD 0 0)
    else false
  let big_drop : Bool :=
    match mdd with
    | some m => decide (m ≤ -8)
    | none => false
  { symbol := target.symbol
    name := target.name
    source_trade_date := src
    source_close := pyRound 3 source_close
    t1_return_pct := t1
    t2_return_pct := t2
    t3_return_pct := t3
    mdd_3d_pct := mdd
    reason_t1 := rt1.1
    reason_t2 := rt2.1
    reason_t3 := rt3.1
    reason_tags_t1 := rt1.2
    reason_tags_t2 := rt2.2
    reason_tags_t3 := rt3.2
    should_remove := big_drop || consecutive_down
    remove_reason :=
      if big_drop then "3天内大跌" else if consecutive_down then "连续下跌" else ""
    decision_stage := target.decision_stage
    decision_conclusion_type := target.decision_conclusion_type
    decision_evidence_chain := target.decision_evidence_chain.take 3
    decision_info_gaps := target.decision_info_gaps.take 3 }

/-- `track_three_day_metrics` over a batch, given each target's parsed
price frame. -/
def track_three_day_metrics (fmt2 : ℚ → String)
    (targets : List (TrackTarget × List PriceRow)) : List TrackingMetric :=
  targets.map (fun td => trackOne fmt2 td.1 td.2)

/-- C3.  For every tracking target and k ∈ {1,2,3}: with fewer than k
forward trading rows strictly after the source date, `t{k}_return_pct` is
`None` (never 0); and `mdd_3d_pct` is `None` when no forward rows exist. -/
theorem C3_returns_null_without_forward_rows (fmt2 : ℚ → String)
    (target : TrackTarget) (df : List PriceRow) :
    ((df.filter (fun r => r.date > target.source_trade_date)).length < 1 →
      (trackOne fmt2 target df).t1_return_pct = none)
    ∧ ((df.filter (fun r => r.date > target.source_trade_date)).length < 2 →
      (trackOne fmt2 target df).t2_return_pct = none)
    ∧ ((df.filter (fun r => r.date > target.source_trade_date)).length < 3 →
      (trackOne fmt2 target df).t3_return_pct = none)
    ∧ ((df.filter (fun r => r.date > target.source_trade_date)).length = 0 →
      (trackOne fmt2 target df).mdd_3d_pct = none) := by
  have hlen :
      ((nextRows df target.source_trade_date).map PriceRow.close).length
        = min 3 (df.filter (fun r => r.date > target.source_trade_date)).length := by
    simp [nextRows]
  refine ⟨fun h1 => ?_, fun h2 => ?_, fun h3 => ?_, fun h0 => ?_⟩
  · have hc : ((nextRows df target.source_trade_date).map PriceRow.close).length < 1 := by
      rw [hlen]; omega
    simp only [trackOne]
    rw [if_neg (not_le.mpr hc)]
  · have hc : ((nextRows df target.source_trade_date).map PriceRow.close).length < 2 := by
      rw [hlen]; omega
    simp only [trackOne]
    rw [if_neg (not_le.mpr hc)]
  · have hc : ((nextRows df target.source_trade_date).map PriceRow.close).length < 3 := by
      rw [hlen]; omega
    simp only [trackOne]
    rw [if_neg (not_le.mpr hc)]
  · have hfil : df.filter (fun r => r.date > target.source_trade_date) = [] :=
      List.length_eq_zero.mp h0
    simp [trackOne, computeMdd, nextRows, hfil]

/-- Witness for `C3_returns_null_without_forward_rows`: an empty price frame
(the fetch-failure degradation) yields all-null returns and drawdown. -/
theorem C3_returns_null_witness :
    (([] : List PriceRow).filter
        (fun r => r.date > (⟨"600000", "n", 0, "", "", [], []⟩ : TrackTarget).source_trade_date)).length < 1
    ∧ (trackOne (fun _ => "") ⟨"600000", "n", 0, "", "", [], []⟩ []).t1_return_pct = none
    ∧ (trackOne (fun _ => "") ⟨"600000", "n", 0, "", "", [], []⟩ []).t2_return_pct = none
    ∧ (trackOne (fun _ => "") ⟨"600000", "n", 0, "", "", [], []⟩ []).t3_return_pct = none
    ∧ (trackOne (fun _ => "") ⟨"600000", "n", 0, "", "", [], []⟩ []).mdd_3d_pct = none := by
  have h := C3_returns_null_without_forward_rows (fun _ => "")
    ⟨"600000", "n", 0, "", "", [], []⟩ []
  exact ⟨by decide, h.1 (by decide), h.2.1 (by decide), h.2.2.1 (by decide),
    h.2.2.2 (by decide)⟩

/-- C10.  If the resolved source-date close is non-positive (e.g. the price
fetch failed or the frame has no usable reference close), all of
`t1/t2/t3_return_pct` and `mdd_3d_pct` are `None`, even when forward rows
exist. -/
theorem C10_null_on_nonpositive_source_close (fmt2 : ℚ → String)
    (target : TrackTarget) (df : List PriceRow)
    (h : sourceClose df target.source_trade_date ≤ 0) :
    (trackOne fmt2 target df).t1_return_pct = none
    ∧ (trackOne fmt2 target df).t2_return_pct = none
    ∧ (trackOne fmt2 target df).t3_return_pct = none
    ∧ (trackOne fmt2 target df).mdd_3d_pct = none := by
  refine ⟨?_, ?_, ?_, ?_⟩ <;> simp only [trackOne]
  · split
    · rw [pctChange, if_pos h]
    · rfl
  · split
    · rw [pctChange, if_pos h]
    · rfl
  · split
    · rw [pctChange, if_pos h]
    · rfl
  · rw [computeMdd, if_pos (Or.inl h)]

/-- Witness for `C10_null_on_nonpositive_source_close`: a frame whose
source-date close parses to 0 but which has one forward row — the returns
are null even though forward history exists. -/
theorem C10_null_witness :
    sourceClose [⟨0, 0, 0⟩, ⟨1, 10, 1⟩]
        (⟨"600000", "n", 0, "", "", [], []⟩ : TrackTarget).source_trade_date ≤ 0
    ∧ (([⟨0, 0, 0⟩, ⟨1, 10, 1⟩] : List PriceRow).filter
        (fun r => r.date > (0 : ℤ))).length = 1
    ∧ (trackOne (fun _ => "") ⟨"600000", "n", 0, "", "", [], []⟩
        [⟨0, 0, 0⟩, ⟨1, 10, 1⟩]).t1_return_pct = none
    ∧ (trackOne (fun _ => "") ⟨"600000", "n", 0, "", "", [], []⟩
        [⟨0, 0, 0⟩, ⟨1, 10, 1⟩]).mdd_3d_pct = none := by
  have h := C10_null_on_nonpositive_source_close (fun _ => "")
    ⟨"600000", "n", 0, "", "", [], []⟩ [⟨0, 0, 0⟩, ⟨1, 10, 1⟩] (by decide)
  exact ⟨by decide, by decide, h.1, h.2.2.2⟩

/-! ## Review Engine (`tradingagents/iteration/review_engine.py`) -/

/-- A proposal as built by `_build_proposal`.  The `evidence` and
`trigger_samples` payloads are free-form data that influence no control
flow in `generate_patch_suggestions`; they are not modelled as fields. -/
structure ReviewProposal where
  ptype : String
  title : String
  suggestion : String
  confidence : ℚ
  status : String
deriving DecidableEq

/-- `_build_proposal(type, title, suggestion, …, confidence)`. -/
def buildProposal (ptype title suggestion : String) (confidence : ℚ) : ReviewProposal :=
  { ptype := ptype, title := title, suggestion := suggestion
    confidence := pyRound 3 confidence, status := "proposed" }

/-- `generate_patch_suggestions(tracking_metrics, min_valid_t3_samples)`,
returning `(rule_patch_suggestions, prompt_patch_suggestions)`.
`int(sample_size * 0.35)` is modelled as `(35 * n) / 100` in ℕ (floor). -/
def generate_patch_suggestions (metrics : List TrackingMetric)
    (minValidT3 : ℕ) : List ReviewProposal × List ReviewProposal :=
  if metrics.isEmpty then ([], [])
  else
    let t3s := metrics.filterMap (fun m => m.t3_return_pct)
    let mdds := metrics.filterMap (fun m => m.mdd_3d_pct)
    let removeCnt := (metrics.filter (fun m => m.should_remove)).length
    let sampleSize := metrics.length
    let avgMdd : ℚ := if mdds = [] then 0 else mdds.sum / (mdds.length : ℚ)
    let hasValidT3 := t3s.length ≥ minValidT3
    let winRate : Option ℚ :=
      if hasValidT3 then some (((t3s.filter (fun v => 0 < v)).length : ℚ) / (t3s.length : ℚ))
      else none
    let mddRule :=
      if avgMdd ≤ -6 then
        [buildProposal "rule" "强化回撤过滤"
          "建议在粗筛阶段新增高波动剔除条件，并提高量能持续性门槛（例如vol_ratio下限上调）。" (72/100)]
      else []
    let mddPrompt :=
      if avgMdd ≤ -6 then
        [buildProposal "prompt" "增强风险项约束"
          "建议在决策卡Prompt中增加“若3天MDD预估>8%必须下调续涨评分并给出量化止损位”的硬性规则。" (68/100)]
      else []
    let winRule :=
      match winRate with
      | some w =>
        if w < 45/100 then
          [buildProposal "rule" "下调高位加速权重"
            "建议降低‘高位突破+高换手’组合权重，增加‘次日延续性’验证后再入选初选池。" (7/10)]
        else []
      | none => []
    let winPrompt :=
      match winRate with
      | some w =>
        if w < 45/100 then
          [buildProposal "prompt" "强化兑现识别"
            "建议Prompt增加‘上涨来自兑现还是预期扩张’的判别模板，兑现型个股置信度上限下调。" (66/100)]
        else []
      | none => []
    let removeRule :=
      if removeCnt > max 2 ((35 * sampleSize) / 100) then
        [buildProposal "rule" "启用追踪剔除机制"
          "建议将‘3天内大跌或连续下跌’剔除机制设为默认生效，以降低劣化样本在后续日重复入池。" (75/100)]
      else []
    let insufficientRule :=
      if ¬hasValidT3 then
        [buildProposal "rule" "样本不足暂缓激进调参"
          "当前T+3有效样本不足，建议继续累积样本后再对核心权重做大幅调整。" (8/10)]
      else []
    let insufficientPrompt :=
      if ¬hasValidT3 then
        [buildProposal "prompt" "补充样本期判定提示"
          "建议Prompt在输出结论时增加‘样本期充分性检查’，样本不足时主动提示保守决策。" (78/100)]
      else []
    let ruleSug := mddRule ++ winRule ++ removeRule ++ insufficientRule
    let promptSug := mddPrompt ++ winPrompt ++ insufficientPrompt
    let finalRule :=
      if ruleSug = [] then
        [buildProposal "rule" "维持当前硬规则"
          "当前样本未显示明显规则劣化，建议继续观察并累积样本后再调整权重。" (58/100)]
      else ruleSug
    let finalPrompt :=
      if promptSug = [] then
        [buildProposal "prompt" "维持当前Prompt结构"
          "当前样本下Prompt输出稳定，建议先保持模板并继续收集误判案例。" (57/100)]
      else promptSug
    (finalRule, finalPrompt)

/-- The "emit a placeholder when nothing fired" pattern never yields an
empty list. -/
theorem placeholder_ne_nil {α : Type} (x : α) (rs : List α)
    [Decidable (rs = [])] : (if rs = [] then [x] else rs) ≠ [] := by
  split
  · simp
  · assumption

/-- C9 counterexample to the claim as stated: the empty tracking batch hits
the early return and yields two empty suggestion lists — the output lists
are not "never empty" over every input batch. -/
theorem C9_counterexample :
    (generate_patch_suggestions [] 5).1 = []
    ∧ (generate_patch_suggestions [] 5).2 = [] := by
  constructor <;> rfl

/-- C9 (amended).  For every non-empty batch of tracking metrics, both
returned suggestion lists are non-empty: if no heuristic trigger fired in a
category, a neutral "maintain current" placeholder is emitted there. -/
theorem C9_suggestions_nonempty (metrics : List TrackingMetric) (minValidT3 : ℕ)
    (h : metrics ≠ []) :
    (generate_patch_suggestions metrics minValidT3).1 ≠ []
    ∧ (generate_patch_suggestions metrics minValidT3).2 ≠ [] := by
  cases metrics with
  | nil => exact absurd rfl h
  | cons m rest =>
    rw [generate_patch_suggestions, if_neg (by simp)]
    exact ⟨placeholder_ne_nil _ _, placeholder_ne_nil _ _⟩

/-- Witness for `C9_suggestions_nonempty` at a one-element batch with no
usable samples (both placeholders come from the insufficient-sample and
neutral branches). -/
theorem C9_suggestions_nonempty_witness :
    ([(⟨"600000", "n", 0, 0, none, none, none, none, "", "", "", [], [], [],
        false, "", "", "", [], []⟩ : TrackingMetric)] ≠ [])
    ∧ (generate_patch_suggestions
        [⟨"600000", "n", 0, 0, none, none, none, none, "", "", "", [], [], [],
          false, "", "", "", [], []⟩] 5).1 ≠ []
    ∧ (generate_patch_suggestions
        [⟨"600000", "n", 0, 0, none, none, none, none, "", "", "", [], [], [],
          false, "", "", "", [], []⟩] 5).2 ≠ [] := by
  have h := C9_suggestions_nonempty
    [⟨"600000", "n", 0, 0, none, none, none, none, "", "", "", [], [], [],
      false, "", "", "", [], []⟩] 5 (by simp)
  exact ⟨by simp, h.1, h.2⟩

/-! ## Patch Pool (`tradingagents/iteration/patch_pool.py`) -/

/-- A pooled proposal.  `applied` models Python's `p.get("applied") is True`
(absent/other values behave as `false`). -/
structure PoolProposal where
  id : String
  ptype : String
  title : String
  suggestion : String
  status : String
  applied : Bool
  applied_at : Option String
deriving DecidableEq

/-- Set a key in an association list (Python dict assignment: replace the
existing binding, else append). -/
def setKey : List (String × ℚ) → String → ℚ → List (String × ℚ)
  | [], k, v => [(k, v)]
  | (k', v') :: t, k, v =>
    if k' = k then (k, v) :: t else (k', v') :: setKey t k v

/-- `dict.get(key, default)` on an association list. -/
def getKeyD : List (String × ℚ) → String → ℚ → ℚ
  | [], _, d => d
  | (k', v') :: t, k, d => if k' = k then v' else getKeyD t k d

/-- The parsed rulebook.  `apply_accepted_proposals` calls `setdefault` for
these three keys, so the structure always carries them. -/
structure Rulebook where
  hard_filters : List (String × ℚ)
  weights : List (String × ℚ)
  applied_rule_notes : List (String × String × String)
deriving DecidableEq

/-- The mutable state `apply_accepted_proposals` reads and writes: the pool,
the parsed rulebook, and the prompt text. -/
structure PoolState where
  proposals : List PoolProposal
  rulebook : Rulebook
  prompt : String
deriving DecidableEq

/-- Python `str.rstrip()`. -/
def rstrip (s : String) : String := ⟨(dropWs s.data.reverse).reverse⟩

/-- The header-insertion step: ensure the prompt contains the
`"## Iteration Patches"` marker. -/
def normalizePrompt (pt : String) : String :=
  if strOccurs "## Iteration Patches" pt then pt
  else rstrip pt ++ "\n\n## Iteration Patches\n"

/-- Result of the proposal-application loop. -/
structure ApplyOut where
  proposals : List PoolProposal
  rulebook : Rulebook
  prompt : String
  applied_rule_ids : List String
  applied_prompt_ids : List String
deriving DecidableEq

/-- The `for p in proposals` loop of `apply_accepted_proposals`:
skip anything not accepted or already applied; otherwise apply the
pattern-matched title triggers, append the note / prompt line, and mark the
proposal applied at timestamp `now`. -/
def applyLoop (now : String) : List PoolProposal → Rulebook → String → ApplyOut
  | [], rb, pt => ⟨[], rb, pt, [], []⟩
  | p :: rest, rb, pt =>
    if p.status ≠ "accepted" ∨ p.applied = true then
      let out := applyLoop now rest rb pt
      { out with proposals := p :: out.proposals }
    else
      let rb1 :=
        if p.ptype = "rule" then
          let rba :=
            if strOccurs "回撤过滤" p.title then
              { rb with hard_filters := setKey rb.hard_filters "max_3d_mdd_pct" (-8) }
            else rb
          let rbb :=
            if strOccurs "高位加速权重" p.title then
              { rba with
                weights :=
                  setKey rba.weights "style_score"
                    (pyRound 3 (max (5/100) (getKeyD rba.weights "style_score" (1/10) - 2/100))) }
            else rba
          { rbb with applied_rule_notes :=
              rbb.applied_rule_notes ++ [(p.id, p.title, p.suggestion)] }
        else rb
      let pt1 :=
        if p.ptype = "prompt" then
          pt ++ "\n- [" ++ p.id ++ "] " ++ p.title ++ ": " ++ p.suggestion ++ "\n"
        else pt
      let p' := { p with applied := true, applied_at := some now }
      let out := applyLoop now rest rb1 pt1
      { out with
        proposals := p' :: out.proposals
        applied_rule_ids := (if p.ptype = "rule" then [p.id] else []) ++ out.applied_rule_ids
        applied_prompt_ids :=
          (if p.ptype = "prompt" then [p.id] else []) ++ out.applied_prompt_ids }

/-- `apply_accepted_proposals`, as a transformation of the persisted state
(`now` is the wall-clock timestamp used for `applied_at`). -/
def apply_accepted_proposals (now : String) (s : PoolState) : PoolState × List String × List String :=
  let out := applyLoop now s.proposals s.rulebook (normalizePrompt s.prompt)
  (⟨out.proposals, out.rulebook, out.prompt⟩, out.applied_rule_ids, out.applied_prompt_ids)

theorem listStarts_append (n : List Char) :
    ∀ xs ys : List Char, listStarts n xs = true → listStarts n (xs ++ ys) = true := by
  induction n with
  | nil => intro xs ys _; rfl
  | cons a n ih =>
    intro xs ys h
    cases xs with
    | nil => simp [listStarts] at h
    | cons b t =>
      simp only [listStarts, Bool.and_eq_true] at h ⊢
      exact ⟨h.1, ih t ys h.2⟩

theorem listOccurs_append_left (n : List Char) :
    ∀ xs ys : List Char, listOccurs n xs = true → listOccurs n (xs ++ ys) = true := by
  intro xs
  induction xs with
  | nil =>
    intro ys h
    simp only [listOccurs, List.isEmpty_iff] at h
    subst h
    cases ys with
    | nil => rfl
    | cons b t => simp [listOccurs, listStarts]
  | cons x t ih =>
    intro ys h
    simp only [listOccurs, Bool.or_eq_true] at h ⊢
    rcases h with h | h
    · exact Or.inl (listStarts_append n (x :: t) ys h)
    · exact Or.inr (ih ys h)

theorem listOccurs_append_right (n : List Char) :
    ∀ xs ys : List Char, listOccurs n ys = true → listOccurs n (xs ++ ys) = true := by
  intro xs
  induction xs with
  | nil => intro ys h; exact h
  | cons x t ih =>
    intro ys h
    simp only [List.cons_append, listOccurs, Bool.or_eq_true]
    exact Or.inr (ih ys h)

theorem strOccurs_append_left (n a b : String) (h : strOccurs n a = true) :
    strOccurs n (a ++ b) = true := by
  have hd : (a ++ b).data = a.data ++ b.data := rfl
  unfold strOccurs at *
  rw [hd]
  exact listOccurs_append_left _ _ _ h

theorem strOccurs_append_right (n a b : String) (h : strOccurs n b = true) :
    strOccurs n (a ++ b) = true := by
  have hd : (a ++ b).data = a.data ++ b.data := rfl
  unfold strOccurs at *
  rw [hd]
  exact listOccurs_append_right _ _ _ h

theorem normalizePrompt_has_marker (pt : String) :
    strOccurs "## Iteration Patches" (normalizePrompt pt) = true := by
  unfold normalizePrompt
  split
  · assumption
  · exact strOccurs_append_right _ _ _ (by decide)

/-- Every proposal coming out of the application loop satisfies: accepted
implies applied. -/
theorem applyLoop_all_applied (now : String) :
    ∀ (ps : List PoolProposal) (rb : Rulebook) (pt : String),
      ∀ p' ∈ (applyLoop now ps rb pt).proposals,
        p'.status = "accepted" → p'.applied = true := by
  intro ps
  induction ps with
  | nil => intro rb pt p' h; simp [applyLoop] at h
  | cons p rest ih =>
    intro rb pt p' hmem hacc
    rw [applyLoop] at hmem
    by_cases hskip : p.status ≠ "accepted" ∨ p.applied = true
    · rw [if_pos hskip] at hmem
      rcases List.mem_cons.mp hmem with rfl | htail
      · rcases hskip with hs | ha
        · exact absurd hacc hs
        · exact ha
      · exact ih rb pt p' htail hacc
    · rw [if_neg hskip] at hmem
      rcases List.mem_cons.mp hmem with rfl | htail
      · rfl
      · exact ih _ _ p' htail hacc

/-- The loop preserves the presence of the iteration-patches marker. -/
theorem applyLoop_prompt_marker (now : String) :
    ∀ (ps : List PoolProposal) (rb : Rulebook) (pt : String),
      strOccurs "## Iteration Patches" pt = true →
      strOccurs "## Iteration Patches" (applyLoop now ps rb pt).prompt = true := by
  intro ps
  induction ps with
  | nil => intro rb pt h; exact h
  | cons p rest ih =>
    intro rb pt h
    rw [applyLoop]
    by_cases hskip : p.status ≠ "accepted" ∨ p.applied = true
    · rw [if_pos hskip]
      exact ih rb pt h
    · rw [if_neg hskip]
      dsimp only
      apply ih
      split
      · repeat apply strOccurs_append_left
        exact h
      · exact h

/-- If no proposal in the list is both accepted and unapplied, the loop is
the identity on the pool, the rulebook and the prompt. -/
theorem applyLoop_noop (now : String) :
    ∀ (ps : List PoolProposal) (rb : Rulebook) (pt : String),
      (∀ p ∈ ps, p.status = "accepted" → p.applied = true) →
      applyLoop now ps rb pt = ⟨ps, rb, pt, [], []⟩ := by
  intro ps
  induction ps with
  | nil => intro rb pt _; rfl
  | cons p rest ih =>
    intro rb pt hall
    have hskip : p.status ≠ "accepted" ∨ p.applied = true := by
      by_cases hs : p.status = "accepted"
      · exact Or.inr (hall p (List.mem_cons_self p rest) hs)
      · exact Or.inl hs
    rw [applyLoop, if_pos hskip,
      ih rb pt (fun q hq => hall q (List.mem_cons_of_mem p hq))]

/-- C4.  `apply_accepted_proposals` is idempotent per proposal: after a run,
every accepted proposal in the pool is marked applied, and running the
function again (at any later timestamp) leaves the rulebook content, the
prompt text, and every proposal's `applied_at` timestamp unchanged (in fact
the whole pool state is unchanged). -/
theorem C4_apply_idempotent (s0 : PoolState) (now1 now2 : String) :
    (∀ p ∈ (apply_accepted_proposals now1 s0).1.proposals,
        p.status = "accepted" → p.applied = true)
    ∧ (apply_accepted_proposals now2 (apply_accepted_proposals now1 s0).1).1.rulebook
        = (apply_accepted_proposals now1 s0).1.rulebook
    ∧ (apply_accepted_proposals now2 (apply_accepted_proposals now1 s0).1).1.prompt
        = (apply_accepted_proposals now1 s0).1.prompt
    ∧ (apply_accepted_proposals now2 (apply_accepted_proposals now1 s0).1).1.proposals.map
          PoolProposal.applied_at
        = (apply_accepted_proposals now1 s0).1.proposals.map PoolProposal.applied_at := by
  have hall : ∀ p ∈ (apply_accepted_proposals now1 s0).1.proposals,
      p.status = "accepted" → p.applied = true :=
    applyLoop_all_applied now1 s0.proposals s0.rulebook (normalizePrompt s0.prompt)
  have hmark : strOccurs "## Iteration Patches"
      (apply_accepted_proposals now1 s0).1.prompt = true :=
    applyLoop_prompt_marker now1 s0.proposals s0.rulebook _
      (normalizePrompt_has_marker s0.prompt)
  have hnorm : normalizePrompt (apply_accepted_proposals now1 s0).1.prompt
      = (apply_accepted_proposals now1 s0).1.prompt := by
    unfold normalizePrompt
    rw [if_pos hmark]
  have hsecond : applyLoop now2 (apply_accepted_proposals now1 s0).1.proposals
      (apply_accepted_proposals now1 s0).1.rulebook
      (normalizePrompt (apply_accepted_proposals now1 s0).1.prompt)
      = ⟨(apply_accepted_proposals now1 s0).1.proposals,
         (apply_accepted_proposals now1 s0).1.rulebook,
         (apply_accepted_proposals now1 s0).1.prompt, [], []⟩ := by
    rw [hnorm]
    exact applyLoop_noop now2 _ _ _ hall
  refine ⟨hall, ?_, ?_, ?_⟩
  · show (applyLoop now2 _ _ _).rulebook = _
    rw [hsecond]
  · show (applyLoop now2 _ _ _).prompt = _
    rw [hsecond]
  · show (applyLoop now2 _ _ _).proposals.map PoolProposal.applied_at = _
    rw [hsecond]

/-! ## Fine Filter / Decision Engine (`tradingagents/analyzer/fine_filter_engine.py`)

Python formats numbers into evidence strings (`f"{x:.2f}"`, `f"{x}"`).
The exact float-to-text rendering never influences any branch, so the
embedding is parameterised by a rendering `PyFmt`; all theorems hold for
every rendering. -/

/-- Number-to-text renderings used in f-strings. -/
structure PyFmt where
  fix2 : ℚ → String
  flt : ℚ → String

/-- `f"{v}"` for a value that may be `None`. -/
def optStr (flt : ℚ → String) : Option ℚ → String
  | none => "None"
  | some q => flt q

/-- Candidate item fields read by the fine filter (after the sector payload
has been merged in, the sector fields are set; on a bare candidate they
hold the dict-absent defaults). -/
structure FineItem where
  symbol : String
  name : String
  industry : String
  change_pct : ℚ
  trend_label : String
  last_close : ℚ
  ma5 : ℚ
  ma10 : ℚ
  vol_ratio : ℚ
  sector : String
  sector_day_strength : Option ℚ
  sector_trend_3d : Option ℚ
  sector_multiplier : Option ℚ
  sector_leader_symbol : String
  sector_leader_status : String
  calibration_reason : String
deriving DecidableEq

/-- The seven keys of `_build_sector_payload`. -/
structure SectorPayload where
  sector : String
  sector_day_strength : Option ℚ
  sector_trend_3d : Option ℚ
  sector_multiplier : Option ℚ
  sector_leader_symbol : String
  sector_leader_status : String
  calibration_reason : String
deriving DecidableEq

/-- The payload fields as read back from the item itself (the per-field
fallback of `_build_sector_payload` when the context map has no entry). -/
def payloadFromItem (item : FineItem) : SectorPayload :=
  { sector := item.sector
    sector_day_strength := item.sector_day_strength
    sector_trend_3d := item.sector_trend_3d
    sector_multiplier := item.sector_multiplier
    sector_leader_symbol := item.sector_leader_symbol
    sector_leader_status := item.sector_leader_status
    calibration_reason := item.calibration_reason }

/-- `_build_sector_payload`: prefer the explicit context map entry (the
calibrator writes all seven keys into each entry), else the fields merged
in the item. -/
def buildSectorPayload (ctx : String → Option SectorPayload) (item : FineItem) :
    SectorPayload :=
  match ctx item.symbol with
  | some p => p
  | none => payloadFromItem item

/-- `item_with_sector = {**item, **sector_payload}`. -/
def mergeSector (item : FineItem) (p : SectorPayload) : FineItem :=
  { item with
    sector := p.sector
    sector_day_strength := p.sector_day_strength
    sector_trend_3d := p.sector_trend_3d
    sector_multiplier := p.sector_multiplier
    sector_leader_symbol := p.sector_leader_symbol
    sector_leader_status := p.sector_leader_status
    calibration_reason := p.calibration_reason }

/-- The `DecisionCard` record (pydantic model in
`decision_card_schema.py`). -/
structure DecisionCard where
  symbol : String
  name : String
  industry : String
  conclusion_type : String
  stage : String
  evidence_chain : List String
  tradability : String
  sustainability : String
  expectation_gap : String
  structure_position : String
  max_risk : String
  reversal_trigger : String
  info_gaps : List String
deriving DecidableEq

/-- `_fallback_decision(item)`: deterministic rule-mode decision card. -/
def fallbackDecision (fm : PyFmt) (item : FineItem) : DecisionCard :=
  let sector := if pyStrip item.sector = "" then "unknown_sector" else pyStrip item.sector
  let leader_status :=
    if pyStrip item.sector_leader_status = "" then "未知"
    else pyStrip item.sector_leader_status
  let stage :=
    if item.change_pct ≥ 8 ∧ item.last_close ≥ item.ma5 ∧ item.ma5 ≥ item.ma10 then "加速"
    else if item.change_pct > 0 ∧ item.last_close ≥ item.ma5 then "启动"
    else if item.last_close < item.ma10 then "调整"
    else "二次启动"
  { symbol := item.symbol
    name := item.name
    industry := item.industry
    conclusion_type := "趋势"
    stage := stage
    evidence_chain :=
      [ "当日涨幅为" ++ fm.fix2 item.change_pct ++ "%，价格行为显示短线活跃"
      , "趋势标签为" ++ item.trend_label ++ "，收盘与均线关系为 Close=" ++ fm.flt item.last_close
          ++ " MA5=" ++ fm.flt item.ma5 ++ " MA10=" ++ fm.flt item.ma10
      , "板块" ++ sector ++ "强度参考：day_strength=" ++ optStr fm.flt item.sector_day_strength
          ++ ", trend_3d=" ++ optStr fm.flt item.sector_trend_3d
          ++ ", multiplier=" ++ optStr fm.flt item.sector_multiplier
          ++ ", leader_status=" ++ leader_status ]
    tradability := "主线/分支交易性中等，需结合当日板块强弱确认"
    sustainability := "短期持续性取决于量能是否维持与催化是否扩散"
    expectation_gap := "当前更多是结构兑现，若有新增催化才可能打开空间"
    structure_position := "Close=" ++ fm.flt item.last_close ++ " MA5=" ++ fm.flt item.ma5
      ++ " MA10=" ++ fm.flt item.ma10
    max_risk := "冲高回落并跌破MA10导致情绪快速降温"
    reversal_trigger := "放量站回前高且收盘不破MA5"
    info_gaps := ["缺少更细颗粒度资金流数据", "缺少板块内龙头强弱确认"] }

/-- Python `" ".join(xs)`. -/
def joinSpace : List String → String
  | [] => ""
  | [s] => s
  | s :: t => s ++ " " ++ joinSpace t

/-- The sector-keyword test of `_ensure_sector_evidence`:
`any(k in text for k in ["板块", "sector", "multiplier", "leader_status"])`. -/
def hasSectorKeyword (text : String) : Bool :=
  strOccurs "板块" text || strOccurs "sector" text ||
  strOccurs "multiplier" text || strOccurs "leader_status" text

/-- The synthesized sector-evidence sentence appended by
`_ensure_sector_evidence`. -/
def sectorRepairText (fm : PyFmt) (p : SectorPayload) : String :=
  "板块上下文纳入判断：sector=" ++ p.sector
    ++ ", day_strength=" ++ optStr fm.flt p.sector_day_strength
    ++ ", trend_3d=" ++ optStr fm.flt p.sector_trend_3d
    ++ ", multiplier=" ++ optStr fm.flt p.sector_multiplier
    ++ ", leader_status=" ++ p.sector_leader_status

/-- `_ensure_sector_evidence(card, sector_payload)` (mutation modelled as
returning the updated card). -/
def ensureSectorEvidence (fm : PyFmt) (card : DecisionCard) (p : SectorPayload) :
    DecisionCard :=
  if hasSectorKeyword (joinSpace card.evidence_chain) then card
  else
    { card with
      evidence_chain := card.evidence_chain.take 2 ++ [sectorRepairText fm p] }

/-- Fields of the JSON object extracted from an LLM response (`obj.get`
with defaults; a missing/null `evidence_chain` collapses to `[]` via
`obj.get("evidence_chain") or []`; a non-list value or non-string entries
make the pydantic construction raise, which is the error path). -/
structure AiObj where
  conclusion_type : Option String
  stage : Option String
  evidence_chain : List String
  tradability : Option String
  sustainability : Option String
  expectation_gap : Option String
  structure_position : Option String
  max_risk : Option String
  reversal_trigger : Option String
  info_gaps : List String
deriving DecidableEq

/-- Outcome of one AI attempt for one candidate: a parsed object, or an
exception (LLM transport error, JSON-extraction error, or pydantic
validation error) whose message lands in the trace. -/
inductive AiOutcome where
  | ok (obj : AiObj)
  | err (msg : String)

/-- The pydantic `Literal` validation on `conclusion_type` and `stage`
(applied to the values after the `obj.get` defaults). -/
def validAi (o : AiObj) : Bool :=
  ["趋势", "情绪", "混合"].contains (o.conclusion_type.getD "混合")
    && ["启动", "加速", "调整", "二次启动"].contains (o.stage.getD "启动")

/-- The successful AI branch of `analyze_candidates`: build the card from
the parsed object, then apply the sector-evidence repair and the
length-3 backstop.  Note the source uses the bare `item` for the
empty-chain fallback but `item_with_sector` for the final backstop. -/
def processAi (fm : PyFmt) (item itemWS : FineItem) (p : SectorPayload)
    (obj : AiObj) : DecisionCard :=
  let chain0 := obj.evidence_chain.take 3
  let chain1 :=
    if chain0 = [] then (fallbackDecision fm item).evidence_chain else chain0
  let card : DecisionCard :=
    { symbol := item.symbol
      name := item.name
      industry := item.industry
      conclusion_type := obj.conclusion_type.getD "混合"
      stage := obj.stage.getD "启动"
      evidence_chain := chain1
      tradability := obj.tradability.getD "待观察"
      sustainability := obj.sustainability.getD "待观察"
      expectation_gap := obj.expectation_gap.getD "待观察"
      structure_position := obj.structure_position.getD "待观察"
      max_risk := obj.max_risk.getD "待观察"
      reversal_trigger := obj.reversal_trigger.getD "待观察"
      info_gaps := obj.info_gaps.take 3 }
  let card1 := ensureSectorEvidence fm card p
  if card1.evidence_chain.length < 3 then
    { card1 with evidence_chain := (fallbackDecision fm itemWS).evidence_chain }
  else card1

/-- The per-candidate body of `analyze_candidates`: `llm = none` models the
rule-only mode (AI disabled or LLM construction failed); otherwise the
oracle abstracts prompt building + `llm.invoke` + JSON extraction +
card construction, whose failure message feeds the trace.  Returns the
card and the `(mode, error)` trace entry. -/
def analyzeItem (fm : PyFmt) (llm : Option (FineItem → AiOutcome))
    (ctx : String → Option SectorPayload) (item : FineItem) :
    DecisionCard × (String × String) :=
  let payload := buildSectorPayload ctx item
  let itemWS := mergeSector item payload
  match llm with
  | none => (fallbackDecision fm itemWS, ("fallback", ""))
  | some oracle =>
    match oracle itemWS with
    | .err e => (fallbackDecision fm itemWS, ("fallback", e))
    | .ok obj =>
      if validAi obj then (processAi fm item itemWS payload obj, ("ai", ""))
      else (fallbackDecision fm itemWS, ("fallback", "ValidationError"))

/-- `analyze_candidates`: per-candidate card + trace, in input order
("pure" mode, `max_selected` unused). -/
def analyze_candidates (fm : PyFmt) (llm : Option (FineItem → AiOutcome))
    (ctx : String → Option SectorPayload) (candidates : List FineItem) :
    List (DecisionCard × (String × String)) :=
  candidates.map (analyzeItem fm llm ctx)

theorem listStarts_refl (n : List Char) : listStarts n n = true := by
  induction n with
  | nil => rfl
  | cons a t ih => simp [listStarts, ih]

theorem strOccurs_refl (s : String) : strOccurs s s = true :=
  listOccurs_of_starts _ _ (listStarts_refl s.data)

/-- An occurrence of a space-free needle in a space-join lies inside one of
the joined pieces. -/
theorem strOccurs_join (k : String) (hk : k.data ≠ []) (hc : ' ' ∉ k.data) :
    ∀ l : List String, strOccurs k (joinSpace l) = true →
      ∃ e ∈ l, strOccurs k e = true := by
  intro l
  induction l with
  | nil =>
    intro h
    unfold strOccurs joinSpace at h
    simp only [listOccurs, List.isEmpty_iff] at h
    exact absurd h hk
  | cons s t ih =>
    cases t with
    | nil => intro h; exact ⟨s, List.mem_singleton_self s, h⟩
    | cons s2 t2 =>
      intro h
      have hdata : (joinSpace (s :: s2 :: t2)).data
          = s.data ++ ' ' :: (joinSpace (s2 :: t2)).data := by
        show ((s ++ " ") ++ joinSpace (s2 :: t2)).data = _
        have h1 : ((s ++ " ") ++ joinSpace (s2 :: t2)).data
            = (s.data ++ [' ']) ++ (joinSpace (s2 :: t2)).data := rfl
        rw [h1, List.append_assoc]
        rfl
      unfold strOccurs at h
      rw [hdata] at h
      rcases listOccurs_split k.data ' ' hc s.data _ h with h1 | h2
      · exact ⟨s, List.mem_cons_self s _, h1⟩
      · obtain ⟨e, he, hoc⟩ := ih h2
        exact ⟨e, List.mem_cons_of_mem s he, hoc⟩

/-- If the joined evidence text contains a sector keyword, some single
entry contains one (the separator `" "` appears in no keyword). -/
theorem keyword_in_join (l : List String)
    (h : hasSectorKeyword (joinSpace l) = true) :
    ∃ e ∈ l, hasSectorKeyword e = true := by
  unfold hasSectorKeyword at h
  simp only [Bool.or_eq_true] at h
  rcases h with ((ha | hb) | h2) | h4
  · obtain ⟨e, he, hoc⟩ := strOccurs_join "板块" (by decide) (by decide) l ha
    exact ⟨e, he, by simp [hasSectorKeyword, hoc]⟩
  · obtain ⟨e, he, hoc⟩ := strOccurs_join "sector" (by decide) (by decide) l hb
    exact ⟨e, he, by simp [hasSectorKeyword, hoc]⟩
  · obtain ⟨e, he, hoc⟩ := strOccurs_join "multiplier" (by decide) (by decide) l h2
    exact ⟨e, he, by simp [hasSectorKeyword, hoc]⟩
  · obtain ⟨e, he, hoc⟩ := strOccurs_join "leader_status" (by decide) (by decide) l h4
    exact ⟨e, he, by simp [hasSectorKeyword, hoc]⟩

/-- The fallback card's evidence chain has exactly 3 entries, all
non-empty, and its third entry starts with `板块`. -/
theorem fallback_chain_props (fm : PyFmt) (item : FineItem) :
    (fallbackDecision fm item).evidence_chain.length = 3
    ∧ ∃ e ∈ (fallbackDecision fm item).evidence_chain, hasSectorKeyword e = true := by
  constructor
  · rfl
  · refine ⟨_, List.mem_cons_of_mem _ (List.mem_cons_of_mem _ (List.mem_cons_self _ _)), ?_⟩
    unfold hasSectorKeyword
    simp only [Bool.or_eq_true]
    left; left; left
    repeat apply strOccurs_append_left
    exact strOccurs_refl "板块"

theorem repairText_has_keyword (fm : PyFmt) (p : SectorPayload) :
    hasSectorKeyword (sectorRepairText fm p) = true := by
  unfold hasSectorKeyword sectorRepairText
  simp only [Bool.or_eq_true]
  left; left; left
  repeat apply strOccurs_append_left
  decide

/-- The repair-then-backstop tail shared by the AI branch: for any card
with at most 3 evidence entries, the result has exactly 3 entries and a
keyword-bearing entry. -/
theorem ensure_then_backstop (fm : PyFmt) (itemWS : FineItem) (p : SectorPayload)
    (card : DecisionCard) (hlen : card.evidence_chain.length ≤ 3) :
    (if (ensureSectorEvidence fm card p).evidence_chain.length < 3 then
        { ensureSectorEvidence fm card p with
          evidence_chain := (fallbackDecision fm itemWS).evidence_chain }
      else ensureSectorEvidence fm card p).evidence_chain.length = 3
    ∧ ∃ e ∈ (if (ensureSectorEvidence fm card p).evidence_chain.length < 3 then
        { ensureSectorEvidence fm card p with
          evidence_chain := (fallbackDecision fm itemWS).evidence_chain }
      else ensureSectorEvidence fm card p).evidence_chain,
        hasSectorKeyword e = true := by
  by_cases hrep : hasSectorKeyword (joinSpace card.evidence_chain) = true
  · have hens : ensureSectorEvidence fm card p = card := by
      unfold ensureSectorEvidence
      rw [if_pos hrep]
    rw [hens]
    by_cases hlt : card.evidence_chain.length < 3
    · rw [if_pos hlt]
      exact fallback_chain_props fm itemWS
    · rw [if_neg hlt]
      exact ⟨by omega, keyword_in_join _ hrep⟩
  · have hens : (ensureSectorEvidence fm card p).evidence_chain
        = card.evidence_chain.take 2 ++ [sectorRepairText fm p] := by
      unfold ensureSectorEvidence
      rw [if_neg hrep]
    have hle : (ensureSectorEvidence fm card p).evidence_chain.length ≤ 3 := by
      rw [hens]
      simp only [List.length_append, List.length_cons, List.length_nil]
      have := List.length_take_le 2 card.evidence_chain
      omega
    by_cases hlt : (ensureSectorEvidence fm card p).evidence_chain.length < 3
    · rw [if_pos hlt]
      exact fallback_chain_props fm itemWS
    · rw [if_neg hlt]
      refine ⟨by omega, ⟨sectorRepairText fm p, ?_, repairText_has_keyword fm p⟩⟩
      rw [hens]
      simp

/-- Chain shape produced by the AI branch: exactly 3 entries, one of which
carries a sector keyword. -/
theorem processAi_chain (fm : PyFmt) (item itemWS : FineItem) (p : SectorPayload)
    (obj : AiObj) :
    (processAi fm item itemWS p obj).evidence_chain.length = 3
    ∧ ∃ e ∈ (processAi fm item itemWS p obj).evidence_chain,
        hasSectorKeyword e = true := by
  unfold processAi
  dsimp only
  apply ensure_then_backstop
  show (if obj.evidence_chain.take 3 = [] then (fallbackDecision fm item).evidence_chain
        else obj.evidence_chain.take 3).length ≤ 3
  split
  · exact le_of_eq (fallback_chain_props fm item).1
  · exact List.length_take_le 3 obj.evidence_chain

/-- C1 (amended).  Every decision card returned by `analyze_candidates` —
AI path or rule fallback, over any candidate list, context map, LLM oracle
and number rendering — has an `evidence_chain` of exactly 3 entries, at
least one of which contains one of the keywords
板块 / sector / multiplier / leader_status.  (The entries need not all be
non-empty: see the counterexample.) -/
theorem C1_evidence_chain (fm : PyFmt) (llm : Option (FineItem → AiOutcome))
    (ctx : String → Option SectorPayload) (candidates : List FineItem) :
    ∀ ct ∈ analyze_candidates fm llm ctx candidates,
      ct.1.evidence_chain.length = 3
      ∧ ∃ e ∈ ct.1.evidence_chain, hasSectorKeyword e = true := by
  intro ct hct
  obtain ⟨item, _, rfl⟩ := List.mem_map.mp hct
  unfold analyzeItem
  match llm with
  | none => exact fallback_chain_props fm _
  | some oracle =>
    dsimp only
    match oracle (mergeSector item (buildSectorPayload ctx item)) with
    | .err e => exact fallback_chain_props fm _
    | .ok obj =>
      dsimp only
      split
      · exact processAi_chain fm _ _ _ obj
      · exact fallback_chain_props fm _

/-- Witness for `C1_evidence_chain` at a concrete rule-mode run. -/
theorem C1_evidence_chain_witness :
    (analyzeItem ⟨fun _ => "0", fun _ => "0"⟩ none (fun _ => none)
        ⟨"600000", "N", "行业", 0, "up", 0, 0, 0, 0, "电子", none, none, none, "", "", ""⟩
      ∈ analyze_candidates ⟨fun _ => "0", fun _ => "0"⟩ none (fun _ => none)
        [⟨"600000", "N", "行业", 0, "up", 0, 0, 0, 0, "电子", none, none, none, "", "", ""⟩])
    ∧ ((analyzeItem ⟨fun _ => "0", fun _ => "0"⟩ none (fun _ => none)
          ⟨"600000", "N", "行业", 0, "up", 0, 0, 0, 0, "电子", none, none, none, "", "", ""⟩).1.evidence_chain.length
        = 3
      ∧ ∃ e ∈ (analyzeItem ⟨fun _ => "0", fun _ => "0"⟩ none (fun _ => none)
          ⟨"600000", "N", "行业", 0, "up", 0, 0, 0, 0, "电子", none, none, none, "", "", ""⟩).1.evidence_chain,
            hasSectorKeyword e = true) := by
  have hmem : analyzeItem ⟨fun _ => "0", fun _ => "0"⟩ none (fun _ => none)
      ⟨"600000", "N", "行业", 0, "up", 0, 0, 0, 0, "电子", none, none, none, "", "", ""⟩
      ∈ analyze_candidates ⟨fun _ => "0", fun _ => "0"⟩ none (fun _ => none)
        [⟨"600000", "N", "行业", 0, "up", 0, 0, 0, 0, "电子", none, none, none, "", "", ""⟩] := by
    simp [analyze_candidates]
  exact ⟨hmem, C1_evidence_chain _ _ _ _ _ hmem⟩

/-- C1 counterexample to the "non-empty" part of the claim as stated: if
the LLM returns `evidence_chain = ["", "", "x"]` (no sector keyword), the
repair truncates to `["", ""]` and appends the sector sentence, leaving a
3-entry chain that still contains empty entries. -/
theorem C1_counterexample :
    ((analyze_candidates ⟨fun _ => "0", fun _ => "0"⟩
        (some (fun _ => .ok ⟨none, none, ["", "", "x"], none, none, none, none, none, none, []⟩))
        (fun _ => none)
        [⟨"600000", "N", "行业", 0, "up", 0, 0, 0, 0, "电子", none, none, none, "", "", ""⟩]).map
      (fun ct => ct.1.evidence_chain.any (fun e => e = ""))) = [true] := by
  decide

/-- First-match-wins evaluation of a condition/label list, written from
the spec's description of the fallback stage classification. -/
def firstMatch : List (Bool × String) → String → String
  | [], d => d
  | (c, l) :: t, d => if c then l else firstMatch t d

/-- The spec's stage table, top-to-bottom. -/
def specStage (item : FineItem) : String :=
  firstMatch
    [ (decide (item.change_pct ≥ 8) && decide (item.last_close ≥ item.ma5)
        && decide (item.ma5 ≥ item.ma10), "加速")
    , (decide (item.change_pct > 0) && decide (item.last_close ≥ item.ma5), "启动")
    , (decide (item.last_close < item.ma10), "调整") ]
    "二次启动"

/-- C7.  In fallback rule mode the stage is classified by evaluating the
spec's conditions top-to-bottom with first match winning:
加速 if change_pct ≥ 8 and last_close ≥ ma5 ≥ ma10; else 启动 if
change_pct > 0 and last_close ≥ ma5; else 调整 if last_close < ma10;
else 二次启动. -/
theorem C7_fallback_stage (fm : PyFmt) (item : FineItem) :
    (fallbackDecision fm item).stage = specStage item := by
  unfold fallbackDecision specStage
  dsimp only
  simp only [firstMatch, Bool.and_eq_true, decide_eq_true_eq]
  split_ifs <;> first | rfl | tauto

/-! ## Two-Layer Story Engine (`tradingagents/analyzer/story_two_layer.py`)

The per-symbol loop body of `run_story_analysis_2layer` (lines 398-506):
three sequential LLM steps with short-circuiting and a placeholder story
card.  JSON values are modelled by `JVal`; a parsed LLM object is a `Dict`.
Each step (`_run_*_with_io` = prompt build + `llm.invoke` + tolerant JSON
extraction) is abstracted by an oracle returning either `(parsed, raw)` or
the exception text; prompt texts are abstracted by a `PromptKit` (their
template contents influence no branch). -/

/-- JSON values. -/
inductive JVal where
  | null
  | jbool (b : Bool)
  | num (q : ℚ)
  | str (s : String)
  | arr (elems : List JVal)
  | obj (fields : List (String × JVal))

/-- A parsed top-level JSON object (Python dict). -/
def Dict : Type := List (String × JVal)

/-- One evidence item produced by `parse_news_to_evidence` (treated as
upstream input to the per-symbol story loop). -/
structure Evidence where
  id : String
  title : String
  snippet : String
deriving DecidableEq

/-- Evidence item as the dict stored in `evidence_list`. -/
def evidenceJ (e : Evidence) : JVal :=
  .obj [("id", .str e.id), ("title", .str e.title), ("snippet", .str e.snippet)]

/-- A successful step invocation: the parsed JSON and the raw response. -/
structure StepOut where
  parsed : Dict
  raw : String

/-- Per-symbol step oracles: each is the outcome `_run_*_with_io` would
produce (`.error` = the exception text of a transport or parse failure).
Later steps depend on the earlier parsed outputs, as the prompts do. -/
structure StoryOracle where
  narrative : Except String StepOut
  timeline : Dict → Except String StepOut
  synthesizer : Dict → Dict → Except String StepOut

/-- The three prompt texts (narrative; timeline given narrative_json;
synthesizer given narrative_json and timeline_json). -/
structure PromptKit where
  narrP : String
  tlP : Dict → String
  synP : Dict → Dict → String

/-- One `prompt_io` entry (`prompt_input`, the structured echo of the
argument dicts, is omitted: it repeats the step's inputs verbatim). -/
structure TraceEntry where
  prompt_text : String
  raw_response : String
  raw_input : String
  raw_output : String
  parsed : Dict
  error : Option String

/-- Trace entry of a successful step: prompt and raw response verbatim. -/
def okEntry (prompt raw : String) (parsed : Dict) : TraceEntry :=
  ⟨prompt, raw, prompt, raw, parsed, none⟩

/-- Trace entry of a failed step: empty prompt/response fields plus the
error text (source lines 417-425, 441-449, 471-483). -/
def errEntry (e : String) : TraceEntry :=
  ⟨"", "", "", "", [], some e⟩

/-- Association-list lookup in the `prompt_io` map. -/
def lookupEntry : List (String × TraceEntry) → String → Option TraceEntry
  | [], _ => none
  | (k, v) :: t, key => if k = key then some v else lookupEntry t key

/-- The minimal placeholder story card (source lines 485-495), carrying
`err_msg or "未跑通三层"` in `notes.data_gaps`. -/
def placeholderCard (evidence : List Evidence) (errMsg : String) : Dict :=
  [ ("one_liner", .str "")
  , ("story", .obj [])
  , ("evidence_assessment", .obj
      [("hardness_grade", .str "Weak"), ("hard_evidence", .arr []), ("weak_points", .arr [])])
  , ("timeline", .obj [("near_1_3m", .arr []), ("mid_1_3y", .arr [])])
  , ("why_money_comes", .arr [])
  , ("downgrade_rules", .arr [])
  , ("evidence_list", .arr (evidence.map evidenceJ))
  , ("notes", .obj
      [("data_gaps", .arr [.str (if errMsg = "" then "未跑通三层" else errMsg)])
      , ("strictness", .str "")]) ]

/-- Result of the per-symbol story loop, with an explicit log of which
steps were invoked. -/
structure SymbolStory where
  narrative_json : Dict
  timeline_json : Dict
  story_card : Dict
  prompt_io : List (String × TraceEntry)
  invoked : List String

/-- The per-symbol body of `run_story_analysis_2layer`: narrative, then
timeline only if `narrative_json` is truthy, then synthesis only if both
are truthy; any falsy/missing story card is replaced by the placeholder. -/
def runSymbol (kit : PromptKit) (oracle : StoryOracle) (evidence : List Evidence) :
    SymbolStory :=
  match oracle.narrative with
  | .error e1 =>
    { narrative_json := []
      timeline_json := []
      story_card := placeholderCard evidence e1
      prompt_io := [("narrative_generator", errEntry e1)]
      invoked := ["narrative_generator"] }
  | .ok out1 =>
    let narrative_json := out1.parsed
    let io1 := [("narrative_generator", okEntry kit.narrP out1.raw out1.parsed)]
    if narrative_json.isEmpty then
      { narrative_json := narrative_json
        timeline_json := []
        story_card := placeholderCard evidence ""
        prompt_io := io1
        invoked := ["narrative_generator"] }
    else
      match oracle.timeline narrative_json with
      | .error e2 =>
        { narrative_json := narrative_json
          timeline_json := []
          story_card := placeholderCard evidence e2
          prompt_io := io1 ++ [("timeline_catalyst", errEntry e2)]
          invoked := ["narrative_generator", "timeline_catalyst"] }
      | .ok out2 =>
        let timeline_json := out2.parsed
        let io2 := io1 ++
          [("timeline_catalyst", okEntry (kit.tlP narrative_json) out2.raw out2.parsed)]
        if timeline_json.isEmpty then
          { narrative_json := narrative_json
            timeline_json := timeline_json
            story_card := placeholderCard evidence ""
            prompt_io := io2
            invoked := ["narrative_generator", "timeline_catalyst"] }
        else
          match oracle.synthesizer narrative_json timeline_json with
          | .error e3 =>
            { narrative_json := narrative_json
              timeline_json := timeline_json
              story_card := placeholderCard evidence e3
              prompt_io := io2 ++ [("story_synthesizer", errEntry e3)]
              invoked := ["narrative_generator", "timeline_catalyst", "story_synthesizer"] }
          | .ok out3 =>
            { narrative_json := narrative_json
              timeline_json := timeline_json
              story_card :=
                if out3.parsed.isEmpty then placeholderCard evidence ""
                else out3.parsed
              prompt_io := io2 ++
                [("story_synthesizer",
                  okEntry (kit.synP narrative_json timeline_json) out3.raw out3.parsed)]
              invoked := ["narrative_generator", "timeline_catalyst", "story_synthesizer"] }

/-- The `notes.data_gaps` strings of a story card. -/
def dataGaps (card : Dict) : List String :=
  match card.lookup "notes" with
  | some (.obj nd) =>
    match nd.lookup "data_gaps" with
    | some (.arr gs) =>
      gs.filterMap (fun v => match v with | .str s => some s | _ => none)
    | _ => []
  | _ => []

theorem listOccurs_nil_needle (hay : List Char) : listOccurs [] hay = true := by
  cases hay with
  | nil => rfl
  | cons b t => simp [listOccurs, listStarts]

/-- A string occurs in itself, and the empty string occurs in anything. -/
theorem dataGaps_placeholder (evidence : List Evidence) (e : String) :
    dataGaps (placeholderCard evidence e) = [if e = "" then "未跑通三层" else e] := by
  unfold placeholderCard dataGaps
  simp [List.lookup]

/-- C6.  If the narrative_generator invocation raises, neither
timeline_catalyst nor story_synthesizer is invoked for that symbol, and the
story card is the minimal placeholder whose `notes.data_gaps` carries the
caught error text (the error text occurs in the single gap entry; when the
exception's text is empty the gap entry is the `未跑通三层` filler, which
contains the empty text vacuously). -/
theorem C6_narrative_short_circuit (kit : PromptKit) (oracle : StoryOracle)
    (evidence : List Evidence) (e : String)
    (h : oracle.narrative = .error e) :
    (runSymbol kit oracle evidence).invoked = ["narrative_generator"]
    ∧ "timeline_catalyst" ∉ (runSymbol kit oracle evidence).invoked
    ∧ "story_synthesizer" ∉ (runSymbol kit oracle evidence).invoked
    ∧ (runSymbol kit oracle evidence).story_card = placeholderCard evidence e
    ∧ ∃ g ∈ dataGaps (runSymbol kit oracle evidence).story_card,
        strOccurs e g = true := by
  have hrun : runSymbol kit oracle evidence =
      { narrative_json := []
        timeline_json := []
        story_card := placeholderCard evidence e
        prompt_io := [("narrative_generator", errEntry e)]
        invoked := ["narrative_generator"] } := by
    unfold runSymbol
    rw [h]
  rw [hrun]
  refine ⟨rfl, by simp, by simp, rfl, ?_⟩
  show ∃ g ∈ dataGaps (placeholderCard evidence e), strOccurs e g = true
  rw [dataGaps_placeholder]
  refine ⟨_, List.mem_singleton_self _, ?_⟩
  by_cases he : e = ""
  · rw [if_pos he, he]
    exact listOccurs_nil_needle _
  · rw [if_neg he]
    exact strOccurs_refl e

/-- Witness for `C6_narrative_short_circuit` at a concrete failing oracle. -/
theorem C6_narrative_short_circuit_witness :
    (⟨.error "LLM unavailable", fun _ => .error "t", fun _ _ => .error "s"⟩ :
        StoryOracle).narrative = .error "LLM unavailable"
    ∧ ((runSymbol ⟨"P", fun _ => "Q", fun _ _ => "R"⟩
          ⟨.error "LLM unavailable", fun _ => .error "t", fun _ _ => .error "s"⟩
          [⟨"E1", "title", "snippet"⟩]).invoked = ["narrative_generator"]
      ∧ "timeline_catalyst" ∉ (runSymbol ⟨"P", fun _ => "Q", fun _ _ => "R"⟩
          ⟨.error "LLM unavailable", fun _ => .error "t", fun _ _ => .error "s"⟩
          [⟨"E1", "title", "snippet"⟩]).invoked
      ∧ "story_synthesizer" ∉ (runSymbol ⟨"P", fun _ => "Q", fun _ _ => "R"⟩
          ⟨.error "LLM unavailable", fun _ => .error "t", fun _ _ => .error "s"⟩
          [⟨"E1", "title", "snippet"⟩]).invoked
      ∧ (runSymbol ⟨"P", fun _ => "Q", fun _ _ => "R"⟩
          ⟨.error "LLM unavailable", fun _ => .error "t", fun _ _ => .error "s"⟩
          [⟨"E1", "title", "snippet"⟩]).story_card
          = placeholderCard [⟨"E1", "title", "snippet"⟩] "LLM unavailable"
      ∧ ∃ g ∈ dataGaps (runSymbol ⟨"P", fun _ => "Q", fun _ _ => "R"⟩
          ⟨.error "LLM unavailable", fun _ => .error "t", fun _ _ => .error "s"⟩
          [⟨"E1", "title", "snippet"⟩]).story_card,
            strOccurs "LLM unavailable" g = true) :=
  ⟨rfl, C6_narrative_short_circuit ⟨"P", fun _ => "Q", fun _ _ => "R"⟩
    ⟨.error "LLM unavailable", fun _ => .error "t", fun _ _ => .error "s"⟩
    [⟨"E1", "title", "snippet"⟩] "LLM unavailable" rfl⟩

/-- C8 counterexample to the claim as stated: when a step fails (here the
narrative generator), its trace entry stores an empty `prompt_text` and
`raw_response` rather than the actual prompt (`"PROMPT"`) that was built
and sent — the raw texts are not retained on failure. -/
theorem C8_counterexample :
    (runSymbol ⟨"PROMPT", fun _ => "Q", fun _ _ => "R"⟩
        ⟨.error "boom", fun _ => .error "t", fun _ _ => .error "s"⟩ []).invoked
      = ["narrative_generator"]
    ∧ (lookupEntry (runSymbol ⟨"PROMPT", fun _ => "Q", fun _ _ => "R"⟩
        ⟨.error "boom", fun _ => .error "t", fun _ _ => .error "s"⟩ []).prompt_io
        "narrative_generator").map TraceEntry.prompt_text = some ""
    ∧ (lookupEntry (runSymbol ⟨"PROMPT", fun _ => "Q", fun _ _ => "R"⟩
        ⟨.error "boom", fun _ => .error "t", fun _ _ => .error "s"⟩ []).prompt_io
        "narrative_generator").map TraceEntry.prompt_text ≠ some "PROMPT" := by
  refine ⟨rfl, rfl, ?_⟩
  intro hcontra
  simp [runSymbol, lookupEntry, errEntry] at hcontra

/-- C8 (amended).  For every invoked LLM step that succeeds (invocation and
JSON extraction), the step's raw prompt text and raw response text are
retained verbatim in the `prompt_io` trace, with the parsed JSON alongside;
for a step that fails, the trace entry stores empty `prompt_text` /
`raw_response` strings together with the error text. -/
theorem C8_prompt_io_trace (kit : PromptKit) (oracle : StoryOracle)
    (evidence : List Evidence) :
    (∀ o1, oracle.narrative = .ok o1 →
      lookupEntry (runSymbol kit oracle evidence).prompt_io "narrative_generator"
        = some (okEntry kit.narrP o1.raw o1.parsed))
    ∧ (∀ e1, oracle.narrative = .error e1 →
      lookupEntry (runSymbol kit oracle evidence).prompt_io "narrative_generator"
        = some (errEntry e1))
    ∧ (∀ o1 o2, oracle.narrative = .ok o1 → o1.parsed.isEmpty = false →
        oracle.timeline o1.parsed = .ok o2 →
      lookupEntry (runSymbol kit oracle evidence).prompt_io "timeline_catalyst"
        = some (okEntry (kit.tlP o1.parsed) o2.raw o2.parsed))
    ∧ (∀ o1 e2, oracle.narrative = .ok o1 → o1.parsed.isEmpty = false →
        oracle.timeline o1.parsed = .error e2 →
      lookupEntry (runSymbol kit oracle evidence).prompt_io "timeline_catalyst"
        = some (errEntry e2))
    ∧ (∀ o1 o2 o3, oracle.narrative = .ok o1 → o1.parsed.isEmpty = false →
        oracle.timeline o1.parsed = .ok o2 → o2.parsed.isEmpty = false →
        oracle.synthesizer o1.parsed o2.parsed = .ok o3 →
      lookupEntry (runSymbol kit oracle evidence).prompt_io "story_synthesizer"
        = some (okEntry (kit.synP o1.parsed o2.parsed) o3.raw o3.parsed))
    ∧ (∀ o1 o2 e3, oracle.narrative = .ok o1 → o1.parsed.isEmpty = false →
        oracle.timeline o1.parsed = .ok o2 → o2.parsed.isEmpty = false →
        oracle.synthesizer o1.parsed o2.parsed = .error e3 →
      lookupEntry (runSymbol kit oracle evidence).prompt_io "story_synthesizer"
        = some (errEntry e3)) := by
  refine ⟨?_, ?_, ?_, ?_, ?_, ?_⟩
  · intro o1 h1
    unfold runSymbol
    rw [h1]
    dsimp only
    split
    · simp [lookupEntry]
    · split
      · simp [lookupEntry]
      · split
        · simp [lookupEntry]
        · split <;> simp [lookupEntry]
  · intro e1 h1
    unfold runSymbol
    rw [h1]
    rfl
  · intro o1 o2 h1 hne h2
    unfold runSymbol
    rw [h1]
    dsimp only
    rw [if_neg (by simp [hne]), h2]
    dsimp only
    split
    · simp [lookupEntry, okEntry]
    · split
      · simp [lookupEntry, okEntry]
      · simp [lookupEntry, okEntry]
  · intro o1 e2 h1 hne h2
    unfold runSymbol
    rw [h1]
    dsimp only
    rw [if_neg (by simp [hne]), h2]
    simp [lookupEntry, errEntry]
  · intro o1 o2 o3 h1 hne1 h2 hne2 h3
    unfold runSymbol
    rw [h1]
    dsimp only
    rw [if_neg (by simp [hne1]), h2]
    dsimp only
    rw [if_neg (by simp [hne2]), h3]
    simp [lookupEntry, okEntry]
  · intro o1 o2 e3 h1 hne1 h2 hne2 h3
    unfold runSymbol
    rw [h1]
    dsimp only
    rw [if_neg (by simp [hne1]), h2]
    dsimp only
    rw [if_neg (by simp [hne2]), h3]
    simp [lookupEntry, errEntry]

/-- Witness for `C8_prompt_io_trace` at a concrete all-success oracle:
every step's prompt and raw response appear verbatim in the trace. -/
theorem C8_prompt_io_trace_witness :
    (⟨.ok ⟨[("k", .str "v")], "RAW1"⟩,
        fun _ => .ok ⟨[("t", .str "w")], "RAW2"⟩,
        fun _ _ => .ok ⟨[("s", .str "u")], "RAW3"⟩⟩ : StoryOracle).narrative
      = .ok ⟨[("k", .str "v")], "RAW1"⟩
    ∧ lookupEntry (runSymbol ⟨"P1", fun _ => "P2", fun _ _ => "P3"⟩
        ⟨.ok ⟨[("k", .str "v")], "RAW1"⟩,
          fun _ => .ok ⟨[("t", .str "w")], "RAW2"⟩,
          fun _ _ => .ok ⟨[("s", .str "u")], "RAW3"⟩⟩ []).prompt_io
        "narrative_generator"
      = some (okEntry "P1" "RAW1" [("k", .str "v")])
    ∧ lookupEntry (runSymbol ⟨"P1", fun _ => "P2", fun _ _ => "P3"⟩
        ⟨.ok ⟨[("k", .str "v")], "RAW1"⟩,
          fun _ => .ok ⟨[("t", .str "w")], "RAW2"⟩,
          fun _ _ => .ok ⟨[("s", .str "u")], "RAW3"⟩⟩ []).prompt_io
        "timeline_catalyst"
      = some (okEntry "P2" "RAW2" [("t", .str "w")])
    ∧ lookupEntry (runSymbol ⟨"P1", fun _ => "P2", fun _ _ => "P3"⟩
        ⟨.ok ⟨[("k", .str "v")], "RAW1"⟩,
          fun _ => .ok ⟨[("t", .str "w")], "RAW2"⟩,
          fun _ _ => .ok ⟨[("s", .str "u")], "RAW3"⟩⟩ []).prompt_io
        "story_synthesizer"
      = some (okEntry "P3" "RAW3" [("s", .str "u")]) := by
  have h := C8_prompt_io_trace ⟨"P1", fun _ => "P2", fun _ _ => "P3"⟩
    ⟨.ok ⟨[("k", .str "v")], "RAW1"⟩,
      fun _ => .ok ⟨[("t", .str "w")], "RAW2"⟩,
      fun _ _ => .ok ⟨[("s", .str "u")], "RAW3"⟩⟩ []
  exact ⟨rfl,
    h.1 ⟨[("k", .str "v")], "RAW1"⟩ rfl,
    h.2.2.1 ⟨[("k", .str "v")], "RAW1"⟩ ⟨[("t", .str "w")], "RAW2"⟩ rfl rfl rfl,
    h.2.2.2.2.1 ⟨[("k", .str "v")], "RAW1"⟩ ⟨[("t", .str "w")], "RAW2"⟩
      ⟨[("s", .str "u")], "RAW3"⟩ rfl rfl rfl rfl rfl⟩

end TradingAgent
